import Mathlib

/-!
Shallow embedding of `telegram/bot.py` (a facade over the Telegram bot HTTP API)
and proofs about its parameter handling, token validation, URL construction,
lazy identity cache, error behaviour and camelCase aliasing.

Python values that flow through the facade are modelled by `PyVal`; parameter
maps (`data` dicts) by association lists with Python dict assignment semantics;
the transport collaborator (`telegram.utils.request.Request`) by a pair of pure
response functions; every facade method returns the bot state it leaves behind,
the list of transport calls it made, and its result or raised exception.
-/

/-- Typed user record; mirrors the fields of `telegram.User` that `bot.py` reads
(`id`, `first_name`, `last_name`, `username`). -/
structure User where
  id : Int
  first_name : String
  last_name : Option String
  username : String
deriving Repr, DecidableEq

/-- Python values as they appear in the facade: `None`, booleans, ints, strings,
lists, dicts, `User` objects and `ReplyMarkup` objects (carried by their JSON
serialization). -/
inductive PyVal where
  | none
  | bool (b : Bool)
  | int (n : Int)
  | str (s : String)
  | list (xs : List PyVal)
  | dict (pairs : List (String × PyVal))
  | user (u : User)
  | replyMarkup (json : String)

/-- Python truthiness: `None`, `False`, `0`, `''` and empty containers are falsy;
objects are truthy. -/
def truthy : PyVal → Bool
  | PyVal.none => false
  | PyVal.bool b => b
  | PyVal.int n => n != 0
  | PyVal.str s => s != ""
  | PyVal.list xs => !xs.isEmpty
  | PyVal.dict ps => !ps.isEmpty
  | PyVal.user _ => true
  | PyVal.replyMarkup _ => true

/-- Python `x is None`. -/
def PyVal.isNone : PyVal → Bool
  | PyVal.none => true
  | _ => false

/-- Python `x is True`: identity with the boolean `True`. -/
def PyVal.isTrue : PyVal → Bool
  | PyVal.bool true => true
  | _ => false

/-- Parameter map built by a facade method, in insertion order. -/
abbrev Params := List (String × PyVal)

/-- Python dict assignment `d[k] = v`: replace the binding if the key is present,
otherwise append it. -/
def setItem (d : Params) (k : String) (v : PyVal) : Params :=
  match d with
  | [] => [(k, v)]
  | (k0, v0) :: rest => if k0 = k then (k, v) :: rest else (k0, v0) :: setItem rest k v

/-- Dict lookup returning the value bound to `k`, if any. -/
def getKey (d : Params) (k : String) : Option PyVal :=
  match d with
  | [] => Option.none
  | (k0, v) :: rest => if k0 = k then some v else getKey rest k

/-- Exceptions the facade can raise locally: `InvalidToken`, `TelegramError`,
`ValueError`, `TypeError` and `AttributeError`. -/
inductive TgError where
  | invalidToken
  | telegramError (msg : String)
  | valueError (msg : String)
  | typeError (msg : String)
  | attributeError (msg : String)
deriving Repr, DecidableEq

/-- One transport call: a POST of a parameter map to a URL, or a GET of a URL. -/
inductive Call where
  | post (url : String) (data : Params)
  | get (url : String)

/-- The transport collaborator (`telegram.utils.request.Request`), modelled by
its response to each POST and GET. -/
structure Request where
  postFn : String → Params → PyVal
  getFn : String → PyVal

/-- Observable state of a `Bot` instance: `self.token`, `self.base_url`,
`self.base_file_url`, and the lazily populated identity cache `self.bot`. -/
structure BotState where
  token : String
  base_url : String
  base_file_url : String
  bot : Option User
deriving Repr, DecidableEq

/-- Membership of a codepoint in a list of inclusive codepoint ranges. -/
def inRanges (rs : List (Nat × Nat)) (n : Nat) : Bool :=
  rs.any (fun r => r.1 ≤ n && n ≤ r.2)

/-- Inclusive codepoint ranges of the characters Python `str.isspace` accepts:
the ASCII controls 9-13 and 28-31, space, next line, no-break space, ogham space
mark, the en-quad to hair-space block, line and paragraph separators, narrow
no-break space, medium mathematical space and ideographic space (Unicode 14.0
tables as shipped with the Python 3 runtime). -/
def pyWhitespaceRanges : List (Nat × Nat) :=
  [(0x9, 0xD), (0x1C, 0x20), (0x85, 0x85), (0xA0, 0xA0), (0x1680, 0x1680), (0x2000, 0x200A),
   (0x2028, 0x2029), (0x202F, 0x202F), (0x205F, 0x205F), (0x3000, 0x3000)]

/-- Python `c.isspace()`, as evaluated per character by the whitespace scan of
`Bot._validate_token` (bot.py line 112). -/
def pyIsSpace (c : Char) : Bool :=
  inRanges pyWhitespaceRanges c.toNat

/-- Inclusive codepoint ranges of the characters Python `str.isdigit` accepts:
the decimal digits of every script plus the digit-typed characters such as
superscripts (Unicode 14.0 tables as shipped with the Python 3 runtime). -/
def pyDigitRanges : List (Nat × Nat) :=
  [(0x30, 0x39), (0xB2, 0xB3), (0xB9, 0xB9), (0x660, 0x669), (0x6F0, 0x6F9), (0x7C0, 0x7C9),
   (0x966, 0x96F), (0x9E6, 0x9EF), (0xA66, 0xA6F), (0xAE6, 0xAEF), (0xB66, 0xB6F), (0xBE6,
   0xBEF), (0xC66, 0xC6F), (0xCE6, 0xCEF), (0xD66, 0xD6F), (0xDE6, 0xDEF), (0xE50, 0xE59),
   (0xED0, 0xED9), (0xF20, 0xF29), (0x1040, 0x1049), (0x1090, 0x1099), (0x1369, 0x1371),
   (0x17E0, 0x17E9), (0x1810, 0x1819), (0x1946, 0x194F), (0x19D0, 0x19DA), (0x1A80, 0x1A89),
   (0x1A90, 0x1A99), (0x1B50, 0x1B59), (0x1BB0, 0x1BB9), (0x1C40, 0x1C49), (0x1C50, 0x1C59),
   (0x2070, 0x2070), (0x2074, 0x2079), (0x2080, 0x2089), (0x2460, 0x2468), (0x2474, 0x247C),
   (0x2488, 0x2490), (0x24EA, 0x24EA), (0x24F5, 0x24FD), (0x24FF, 0x24FF), (0x2776, 0x277E),
   (0x2780, 0x2788), (0x278A, 0x2792), (0xA620, 0xA629), (0xA8D0, 0xA8D9), (0xA900, 0xA909),
   (0xA9D0, 0xA9D9), (0xA9F0, 0xA9F9), (0xAA50, 0xAA59), (0xABF0, 0xABF9), (0xFF10, 0xFF19),
   (0x104A0, 0x104A9), (0x10A40, 0x10A43), (0x10D30, 0x10D39), (0x10E60, 0x10E68), (0x11052,
   0x1105A), (0x11066, 0x1106F), (0x110F0, 0x110F9), (0x11136, 0x1113F), (0x111D0, 0x111D9),
   (0x112F0, 0x112F9), (0x11450, 0x11459), (0x114D0, 0x114D9), (0x11650, 0x11659), (0x116C0,
   0x116C9), (0x11730, 0x11739), (0x118E0, 0x118E9), (0x11950, 0x11959), (0x11C50, 0x11C59),
   (0x11D50, 0x11D59), (0x11DA0, 0x11DA9), (0x16A60, 0x16A69), (0x16AC0, 0x16AC9), (0x16B50,
   0x16B59), (0x1D7CE, 0x1D7FF), (0x1E140, 0x1E149), (0x1E2F0, 0x1E2F9), (0x1E950, 0x1E959),
   (0x1F100, 0x1F10A), (0x1FBF0, 0x1FBF9)]

/-- Python `c.isdigit()` per character, as used by `left.isdigit()` in
`Bot._validate_token` (bot.py line 116). -/
def pyIsDigitChar (c : Char) : Bool :=
  inRanges pyDigitRanges c.toNat

/-- Python `s.isdigit()`: nonempty and all characters digits. -/
def pyStrIsDigit (s : List Char) : Bool :=
  !s.isEmpty && s.all pyIsDigitChar

/-- Python `token.partition(colon)`: the part before the first colon, whether a
colon occurs, and the part after it. -/
def partitionColon : List Char → List Char × Bool × List Char
  | [] => ([], false, [])
  | c :: cs =>
    if c = ':' then ([], true, cs)
    else
      let r := partitionColon cs
      (c :: r.1, r.2.1, r.2.2)

/-- `Bot._validate_token` (bot.py lines 109-119): reject tokens containing
whitespace, without a colon separator, whose left part is not all digits, or
whose left part is shorter than 3 characters; return the token unchanged. -/
def validate_token (token : String) : Except TgError String :=
  if token.data.any pyIsSpace then Except.error TgError.invalidToken
  else
    let p := partitionColon token.data
    if !p.2.1 || !pyStrIsDigit p.1 || decide (p.1.length < 3) then
      Except.error TgError.invalidToken
    else Except.ok token

/-- `Bot.__init__` (bot.py lines 90-103): validate the token, default the two
base URLs, and append the token to each. The constructor takes no transport
argument: construction performs no network activity. The identity cache
`self.bot` starts out `None`. -/
def bot_init (token : String) (base_url : Option String) (base_file_url : Option String) :
    Except TgError BotState :=
  match validate_token token with
  | Except.error e => Except.error e
  | Except.ok tok =>
    let bu := base_url.getD "https://api.telegram.org/bot"
    let bfu := base_file_url.getD "https://api.telegram.org/file/bot"
    Except.ok { token := tok, base_url := bu ++ tok, base_file_url := bfu ++ tok,
                bot := Option.none }

/-- Modelled from the spec: `User.de_json` (class `telegram.User`, not under `src/`)
unwraps a JSON envelope into a typed `User` object; a non-user envelope yields no
object. -/
def User.de_json : PyVal → Option User
  | PyVal.user u => some u
  | _ => Option.none

/-- Modelled from the spec: `Message.de_json` (class `telegram.Message`, not under
`src/`) parses a JSON envelope into a typed `Message` data object. -/
structure Message where
  raw : PyVal

/-- Modelled from the spec: the `de_json` conversion for `Message`. -/
def Message.de_json (v : PyVal) : Message := ⟨v⟩

/-- Modelled from the spec: `Chat.de_json` (class `telegram.Chat`, not under `src/`)
parses a JSON envelope into a typed `Chat` data object. -/
structure Chat where
  raw : PyVal

/-- Modelled from the spec: the `de_json` conversion for `Chat`. -/
def Chat.de_json (v : PyVal) : Chat := ⟨v⟩

/-- Modelled from the spec: `ChatMember.de_json` (class `telegram.ChatMember`, not
under `src/`) parses a JSON envelope into a typed `ChatMember` data object. -/
structure ChatMember where
  raw : PyVal

/-- Modelled from the spec: the `de_json` conversion for `ChatMember`. -/
def ChatMember.de_json (v : PyVal) : ChatMember := ⟨v⟩

/-- Modelled from the spec: `UserProfilePhotos.de_json` (not under `src/`) parses a
JSON envelope into a typed `UserProfilePhotos` data object. -/
structure UserProfilePhotos where
  raw : PyVal

/-- Modelled from the spec: the `de_json` conversion for `UserProfilePhotos`. -/
def UserProfilePhotos.de_json (v : PyVal) : UserProfilePhotos := ⟨v⟩

/-- Modelled from the spec: `File.de_json` (class `telegram.File`, not under `src/`)
parses a JSON envelope into a typed `File` data object. -/
structure TgFile where
  raw : PyVal

/-- Modelled from the spec: the `de_json` conversion for `File`. -/
def TgFile.de_json (v : PyVal) : TgFile := ⟨v⟩

/-- Modelled from the spec: `WebhookInfo.de_json` (not under `src/`) parses a JSON
envelope into a typed `WebhookInfo` data object. -/
structure WebhookInfo where
  raw : PyVal

/-- Modelled from the spec: the `de_json` conversion for `WebhookInfo`. -/
def WebhookInfo.de_json (v : PyVal) : WebhookInfo := ⟨v⟩

/-- Modelled from the spec: `GameHighScore.de_json` (not under `src/`) parses a JSON
envelope into a typed `GameHighScore` data object. -/
structure GameHighScore where
  raw : PyVal

/-- Modelled from the spec: the `de_json` conversion for `GameHighScore`. -/
def GameHighScore.de_json (v : PyVal) : GameHighScore := ⟨v⟩

/-- Modelled from the spec: `Update.de_json` (class `telegram.Update`, not under
`src/`) parses a JSON envelope into a typed `Update` data object. -/
structure Update where
  raw : PyVal

/-- Modelled from the spec: the `de_json` conversion for `Update`. -/
def Update.de_json (v : PyVal) : Update := ⟨v⟩

/-- Modelled from the spec: an `InlineQueryResult` (not under `src/`) is carried by
its key-value wire representation, which is what its `to_dict` returns. -/
def InlineQueryResult := Params

/-- Modelled from the spec: the `to_dict` conversion for `InlineQueryResult`. -/
def InlineQueryResult.to_dict (r : InlineQueryResult) : PyVal := PyVal.dict r

/-- Modelled from the spec: a `ShippingOption` (not under `src/`) is carried by its
key-value wire representation, which is what its `to_dict` returns. -/
def ShippingOption := Params

/-- Modelled from the spec: the `to_dict` conversion for `ShippingOption`. -/
def ShippingOption.to_dict (o : ShippingOption) : PyVal := PyVal.dict o

/-- Modelled from the spec: a `LabeledPrice` (not under `src/`) is carried by its
key-value wire representation, which is what its `to_dict` returns. -/
def LabeledPrice := Params

/-- Modelled from the spec: the `to_dict` conversion for `LabeledPrice`. -/
def LabeledPrice.to_dict (p : LabeledPrice) : PyVal := PyVal.dict p

/-- Python iteration over a transport result; a non-list result raises `TypeError`
as in Python. -/
def pyIterList : PyVal → Except TgError (List PyVal)
  | PyVal.list xs => Except.ok xs
  | _ => Except.error (TgError.typeError "object is not iterable")

/-- `Bot.get_me` (bot.py lines 167-190): GET `base_url/getMe`, store the parsed
`User` in the identity cache `self.bot`, and return it. This is the only facade
method that assigns `self.bot`. -/
def get_me (b : BotState) (req : Request) :
    BotState × List Call × Except TgError (Option User) :=
  let url := b.base_url ++ "/getMe"
  let result := req.getFn url
  let bot := User.de_json result
  ({ b with bot := bot }, [Call.get url], Except.ok bot)

/-- The `info` decorator combined with a property body (bot.py lines 37-46 and
121-139): when the identity cache is empty, call `get_me` once (which populates
`self.bot`), then read the requested field from `self.bot`; reading a field when
the cache is still empty raises `AttributeError` as in Python. -/
def info_access (field : User → PyVal) (b : BotState) (req : Request) :
    BotState × List Call × Except TgError PyVal :=
  match b.bot with
  | some u => (b, [], Except.ok (field u))
  | Option.none =>
    let r := get_me b req
    match r.1.bot with
    | some u => (r.1, r.2.1, Except.ok (field u))
    | Option.none =>
      (r.1, r.2.1, Except.error (TgError.attributeError "NoneType object has no attribute"))

/-- Python value of the optional string field `last_name`. -/
def pyOptStr : Option String → PyVal
  | some s => PyVal.str s
  | Option.none => PyVal.none

/-- Property `Bot.id` (bot.py lines 121-124). -/
def prop_id (b : BotState) (req : Request) : BotState × List Call × Except TgError PyVal :=
  info_access (fun u => PyVal.int u.id) b req

/-- Property `Bot.first_name` (bot.py lines 126-129). -/
def prop_first_name (b : BotState) (req : Request) :
    BotState × List Call × Except TgError PyVal :=
  info_access (fun u => PyVal.str u.first_name) b req

/-- Property `Bot.last_name` (bot.py lines 131-134). -/
def prop_last_name (b : BotState) (req : Request) :
    BotState × List Call × Except TgError PyVal :=
  info_access (fun u => pyOptStr u.last_name) b req

/-- Property `Bot.username` (bot.py lines 136-139). -/
def prop_username (b : BotState) (req : Request) :
    BotState × List Call × Except TgError PyVal :=
  info_access (fun u => PyVal.str u.username) b req

/-- Result of a facade method wrapped by the `message` decorator: either the
boolean acknowledgment `True` or a parsed `Message`. -/
inductive MsgResult where
  | boolTrue
  | msg (m : Message)

/-- Parameter merging of `Bot._message_wrapper` (bot.py lines 145-158): the keyword
arguments `reply_to_message_id`, `disable_notification` and `reply_markup` are
merged into the map when truthy, a `ReplyMarkup` instance being serialized via its
`to_json` (modelled from the spec as returning the JSON string it carries, the
class itself not being under `src/`). -/
def message_wrapper_data (data : Params)
    (reply_to_message_id disable_notification reply_markup : PyVal) : Params :=
  let d1 := if truthy reply_to_message_id then
      setItem data "reply_to_message_id" reply_to_message_id
    else data
  let d2 := if truthy disable_notification then
      setItem d1 "disable_notification" disable_notification
    else d1
  if truthy reply_markup then
    match reply_markup with
    | PyVal.replyMarkup j => setItem d2 "reply_markup" (PyVal.str j)
    | rm => setItem d2 "reply_markup" rm
  else d2

/-- `Bot._message_wrapper` (bot.py lines 145-164): merge the reply keyword
arguments, POST, and shape the response: the boolean `True` is returned as is,
anything else goes through `Message.de_json`. -/
def message_wrapper (req : Request) (url : String) (data : Params)
    (reply_to_message_id disable_notification reply_markup : PyVal) :
    List Call × MsgResult :=
  let d := message_wrapper_data data reply_to_message_id disable_notification reply_markup
  let result := req.postFn url d
  ([Call.post url d],
   if result.isTrue then MsgResult.boolTrue else MsgResult.msg (Message.de_json result))

/-- URL and parameter map of `Bot.send_message` (bot.py lines 238-247): the
`message`-decorated body returning `(url, data)`. -/
def send_message_request (b : BotState) (chat_id text parse_mode disable_web_page_preview : PyVal) :
    String × Params :=
  let url := b.base_url ++ "/sendMessage"
  let data : Params := [("chat_id", chat_id), ("text", text)]
  let data := if truthy parse_mode then setItem data "parse_mode" parse_mode else data
  let data := if truthy disable_web_page_preview then
      setItem data "disable_web_page_preview" disable_web_page_preview
    else data
  (url, data)

/-- `Bot.send_message` (bot.py lines 192-247), `message` decorator included. -/
def send_message (b : BotState) (req : Request)
    (chat_id text parse_mode disable_web_page_preview : PyVal)
    (disable_notification reply_to_message_id reply_markup : PyVal) :
    BotState × List Call × MsgResult :=
  (b,
   let r := send_message_request b chat_id text parse_mode disable_web_page_preview
   message_wrapper req r.1 r.2 reply_to_message_id disable_notification reply_markup)

/-- `Bot.delete_message` (bot.py lines 249-283). -/
def delete_message (b : BotState) (req : Request) (chat_id message_id : PyVal) :
    BotState × List Call × PyVal :=
  (b,
   let url := b.base_url ++ "/deleteMessage"
   let data : Params := [("chat_id", chat_id), ("message_id", message_id)]
   ([Call.post url data], req.postFn url data))

/-- URL and parameter map of `Bot.forward_message` (bot.py lines 317-328): all
three parameters are attached only when truthy. -/
def forward_message_request (b : BotState) (chat_id from_chat_id message_id : PyVal) :
    String × Params :=
  let url := b.base_url ++ "/forwardMessage"
  let data : Params := []
  let data := if truthy chat_id then setItem data "chat_id" chat_id else data
  let data := if truthy from_chat_id then setItem data "from_chat_id" from_chat_id else data
  let data := if truthy message_id then setItem data "message_id" message_id else data
  (url, data)

/-- `Bot.forward_message` (bot.py lines 285-328), `message` decorator included. -/
def forward_message (b : BotState) (req : Request) (chat_id from_chat_id message_id : PyVal)
    (disable_notification reply_to_message_id reply_markup : PyVal) :
    BotState × List Call × MsgResult :=
  (b,
   let r := forward_message_request b chat_id from_chat_id message_id
   message_wrapper req r.1 r.2 reply_to_message_id disable_notification reply_markup)

/-- URL and parameter map of `Bot.send_photo` (bot.py lines 374-381). -/
def send_photo_request (b : BotState) (chat_id photo caption : PyVal) : String × Params :=
  let url := b.base_url ++ "/sendPhoto"
  let data : Params := [("chat_id", chat_id), ("photo", photo)]
  let data := if truthy caption then setItem data "caption" caption else data
  (url, data)

/-- `Bot.send_photo` (bot.py lines 330-383), `message` decorator included. -/
def send_photo (b : BotState) (req : Request) (chat_id photo caption : PyVal)
    (disable_notification reply_to_message_id reply_markup : PyVal) :
    BotState × List Call × MsgResult :=
  (b,
   let r := send_photo_request b chat_id photo caption
   message_wrapper req r.1 r.2 reply_to_message_id disable_notification reply_markup)

/-- URL and parameter map of `Bot.send_audio` (bot.py lines 437-450): `duration`,
`performer`, `title` and `caption` are attached only when truthy. -/
def send_audio_request (b : BotState) (chat_id audio duration performer title caption : PyVal) :
    String × Params :=
  let url := b.base_url ++ "/sendAudio"
  let data : Params := [("chat_id", chat_id), ("audio", audio)]
  let data := if truthy duration then setItem data "duration" duration else data
  let data := if truthy performer then setItem data "performer" performer else data
  let data := if truthy title then setItem data "title" title else data
  let data := if truthy caption then setItem data "caption" caption else data
  (url, data)

/-- `Bot.send_audio` (bot.py lines 385-452), `message` decorator included. -/
def send_audio (b : BotState) (req : Request)
    (chat_id audio duration performer title caption : PyVal)
    (disable_notification reply_to_message_id reply_markup : PyVal) :
    BotState × List Call × MsgResult :=
  (b,
   let r := send_audio_request b chat_id audio duration performer title caption
   message_wrapper req r.1 r.2 reply_to_message_id disable_notification reply_markup)

/-- URL and parameter map of `Bot.send_document` (bot.py lines 499-508). -/
def send_document_request (b : BotState) (chat_id document filename caption : PyVal) :
    String × Params :=
  let url := b.base_url ++ "/sendDocument"
  let data : Params := [("chat_id", chat_id), ("document", document)]
  let data := if truthy filename then setItem data "filename" filename else data
  let data := if truthy caption then setItem data "caption" caption else data
  (url, data)

/-- `Bot.send_document` (bot.py lines 454-510), `message` decorator included. -/
def send_document (b : BotState) (req : Request) (chat_id document filename caption : PyVal)
    (disable_notification reply_to_message_id reply_markup : PyVal) :
    BotState × List Call × MsgResult :=
  (b,
   let r := send_document_request b chat_id document filename caption
   message_wrapper req r.1 r.2 reply_to_message_id disable_notification reply_markup)

/-- URL and parameter map of `Bot.send_sticker` (bot.py lines 551-555). -/
def send_sticker_request (b : BotState) (chat_id sticker : PyVal) : String × Params :=
  (b.base_url ++ "/sendSticker", [("chat_id", chat_id), ("sticker", sticker)])

/-- `Bot.send_sticker` (bot.py lines 512-557), `message` decorator included. -/
def send_sticker (b : BotState) (req : Request) (chat_id sticker : PyVal)
    (disable_notification reply_to_message_id reply_markup : PyVal) :
    BotState × List Call × MsgResult :=
  (b,
   let r := send_sticker_request b chat_id sticker
   message_wrapper req r.1 r.2 reply_to_message_id disable_notification reply_markup)

/-- URL and parameter map of `Bot.send_video` (bot.py lines 608-621): `duration`,
`caption`, `width` and `height` are attached only when truthy. -/
def send_video_request (b : BotState) (chat_id video duration caption width height : PyVal) :
    String × Params :=
  let url := b.base_url ++ "/sendVideo"
  let data : Params := [("chat_id", chat_id), ("video", video)]
  let data := if truthy duration then setItem data "duration" duration else data
  let data := if truthy caption then setItem data "caption" caption else data
  let data := if truthy width then setItem data "width" width else data
  let data := if truthy height then setItem data "height" height else data
  (url, data)

/-- `Bot.send_video` (bot.py lines 559-623), `message` decorator included. -/
def send_video (b : BotState) (req : Request)
    (chat_id video duration caption width height : PyVal)
    (disable_notification reply_to_message_id reply_markup : PyVal) :
    BotState × List Call × MsgResult :=
  (b,
   let r := send_video_request b chat_id video duration caption width height
   message_wrapper req r.1 r.2 reply_to_message_id disable_notification reply_markup)

/-- URL and parameter map of `Bot.send_voice` (bot.py lines 670-679). -/
def send_voice_request (b : BotState) (chat_id voice duration caption : PyVal) :
    String × Params :=
  let url := b.base_url ++ "/sendVoice"
  let data : Params := [("chat_id", chat_id), ("voice", voice)]
  let data := if truthy duration then setItem data "duration" duration else data
  let data := if truthy caption then setItem data "caption" caption else data
  (url, data)

/-- `Bot.send_voice` (bot.py lines 625-681), `message` decorator included. -/
def send_voice (b : BotState) (req : Request) (chat_id voice duration caption : PyVal)
    (disable_notification reply_to_message_id reply_markup : PyVal) :
    BotState × List Call × MsgResult :=
  (b,
   let r := send_voice_request b chat_id voice duration caption
   message_wrapper req r.1 r.2 reply_to_message_id disable_notification reply_markup)

/-- URL and parameter map of `Bot.send_video_note` (bot.py lines 727-736): unlike
most send methods, `duration` and `length` are attached whenever they are not
`None`, so falsy values such as `0` are kept. -/
def send_video_note_request (b : BotState) (chat_id video_note duration length : PyVal) :
    String × Params :=
  let url := b.base_url ++ "/sendVideoNote"
  let data : Params := [("chat_id", chat_id), ("video_note", video_note)]
  let data := if !duration.isNone then setItem data "duration" duration else data
  let data := if !length.isNone then setItem data "length" length else data
  (url, data)

/-- `Bot.send_video_note` (bot.py lines 683-738), `message` decorator included. -/
def send_video_note (b : BotState) (req : Request) (chat_id video_note duration length : PyVal)
    (disable_notification reply_to_message_id reply_markup : PyVal) :
    BotState × List Call × MsgResult :=
  (b,
   let r := send_video_note_request b chat_id video_note duration length
   message_wrapper req r.1 r.2 reply_to_message_id disable_notification reply_markup)

/-- URL and parameter map of `Bot.send_location` (bot.py lines 776-780). -/
def send_location_request (b : BotState) (chat_id latitude longitude : PyVal) :
    String × Params :=
  (b.base_url ++ "/sendLocation",
   [("chat_id", chat_id), ("latitude", latitude), ("longitude", longitude)])

/-- `Bot.send_location` (bot.py lines 740-782), `message` decorator included. -/
def send_location (b : BotState) (req : Request) (chat_id latitude longitude : PyVal)
    (disable_notification reply_to_message_id reply_markup : PyVal) :
    BotState × List Call × MsgResult :=
  (b,
   let r := send_location_request b chat_id latitude longitude
   message_wrapper req r.1 r.2 reply_to_message_id disable_notification reply_markup)

/-- URL and parameter map of `Bot.send_venue` (bot.py lines 826-838). -/
def send_venue_request (b : BotState)
    (chat_id latitude longitude title address foursquare_id : PyVal) : String × Params :=
  let url := b.base_url ++ "/sendVenue"
  let data : Params := [("chat_id", chat_id), ("latitude", latitude),
                        ("longitude", longitude), ("address", address), ("title", title)]
  let data := if truthy foursquare_id then setItem data "foursquare_id" foursquare_id else data
  (url, data)

/-- `Bot.send_venue` (bot.py lines 784-840), `message` decorator included. -/
def send_venue (b : BotState) (req : Request)
    (chat_id latitude longitude title address foursquare_id : PyVal)
    (disable_notification reply_to_message_id reply_markup : PyVal) :
    BotState × List Call × MsgResult :=
  (b,
   let r := send_venue_request b chat_id latitude longitude title address foursquare_id
   message_wrapper req r.1 r.2 reply_to_message_id disable_notification reply_markup)

/-- URL and parameter map of `Bot.send_contact` (bot.py lines 881-887). -/
def send_contact_request (b : BotState) (chat_id phone_number first_name last_name : PyVal) :
    String × Params :=
  let url := b.base_url ++ "/sendContact"
  let data : Params := [("chat_id", chat_id), ("phone_number", phone_number),
                        ("first_name", first_name)]
  let data := if truthy last_name then setItem data "last_name" last_name else data
  (url, data)

/-- `Bot.send_contact` (bot.py lines 843-889), `message` decorator included. -/
def send_contact (b : BotState) (req : Request)
    (chat_id phone_number first_name last_name : PyVal)
    (disable_notification reply_to_message_id reply_markup : PyVal) :
    BotState × List Call × MsgResult :=
  (b,
   let r := send_contact_request b chat_id phone_number first_name last_name
   message_wrapper req r.1 r.2 reply_to_message_id disable_notification reply_markup)

/-- URL and parameter map of `Bot.send_game` (bot.py lines 927-931). -/
def send_game_request (b : BotState) (chat_id game_short_name : PyVal) : String × Params :=
  (b.base_url ++ "/sendGame", [("chat_id", chat_id), ("game_short_name", game_short_name)])

/-- `Bot.send_game` (bot.py lines 892-932), `message` decorator included. -/
def send_game (b : BotState) (req : Request) (chat_id game_short_name : PyVal)
    (disable_notification reply_to_message_id reply_markup : PyVal) :
    BotState × List Call × MsgResult :=
  (b,
   let r := send_game_request b chat_id game_short_name
   message_wrapper req r.1 r.2 reply_to_message_id disable_notification reply_markup)

/-- `Bot.send_chat_action` (bot.py lines 934-971). -/
def send_chat_action (b : BotState) (req : Request) (chat_id action : PyVal) :
    BotState × List Call × PyVal :=
  (b,
   let url := b.base_url ++ "/sendChatAction"
   let data : Params := [("chat_id", chat_id), ("action", action)]
   ([Call.post url data], req.postFn url data))

/-- Python `v == n` against an int literal: ints compare by value and booleans
count as 0 or 1, as in Python. -/
def pyEqInt (v : PyVal) (n : Int) : Bool :=
  match v with
  | PyVal.int m => m == n
  | PyVal.bool b => (if b then (1 : Int) else 0) == n
  | _ => false

/-- Parameter map of `Bot.answer_inline_query` (bot.py lines 1031-1044): results
are serialized via `to_dict`; `cache_time` is attached when truthy or equal to 0;
`is_personal`, `switch_pm_text` and `switch_pm_parameter` are attached when
truthy; `next_offset` is attached whenever it is not `None`. -/
def answer_inline_query_data (inline_query_id : PyVal) (results : List InlineQueryResult)
    (cache_time is_personal next_offset switch_pm_text switch_pm_parameter : PyVal) : Params :=
  let rs := PyVal.list (results.map InlineQueryResult.to_dict)
  let data : Params := [("inline_query_id", inline_query_id), ("results", rs)]
  let data := if truthy cache_time || pyEqInt cache_time 0 then
      setItem data "cache_time" cache_time
    else data
  let data := if truthy is_personal then setItem data "is_personal" is_personal else data
  let data := if !next_offset.isNone then setItem data "next_offset" next_offset else data
  let data := if truthy switch_pm_text then setItem data "switch_pm_text" switch_pm_text else data
  let data := if truthy switch_pm_parameter then
      setItem data "switch_pm_parameter" switch_pm_parameter
    else data
  data

/-- `Bot.answer_inline_query` (bot.py lines 975-1049). -/
def answer_inline_query (b : BotState) (req : Request) (inline_query_id : PyVal)
    (results : List InlineQueryResult)
    (cache_time is_personal next_offset switch_pm_text switch_pm_parameter : PyVal) :
    BotState × List Call × PyVal :=
  (b,
   let url := b.base_url ++ "/answerInlineQuery"
   let data := answer_inline_query_data inline_query_id results cache_time is_personal
       next_offset switch_pm_text switch_pm_parameter
   ([Call.post url data], req.postFn url data))

/-- Parameter map of `Bot.get_user_profile_photos` (bot.py lines 1075-1080):
`offset` and `limit` are attached only when truthy. -/
def get_user_profile_photos_data (user_id offset limit : PyVal) : Params :=
  let data : Params := [("user_id", user_id)]
  let data := if truthy offset then setItem data "offset" offset else data
  let data := if truthy limit then setItem data "limit" limit else data
  data

/-- `Bot.get_user_profile_photos` (bot.py lines 1051-1085). -/
def get_user_profile_photos (b : BotState) (req : Request) (user_id offset limit : PyVal) :
    BotState × List Call × UserProfilePhotos :=
  (b,
   let url := b.base_url ++ "/getUserProfilePhotos"
   let data := get_user_profile_photos_data user_id offset limit
   ([Call.post url data], UserProfilePhotos.de_json (req.postFn url data)))

/-- `Bot.get_file` (bot.py lines 1087-1119): after the POST, a truthy `file_path`
in the result dict is rewritten to `base_file_url/file_path` before `File.de_json`;
calling `.get` on a non-dict result raises `AttributeError` as in Python. The `%s`
formatting of the stored path value is modelled for the string case the remote
protocol produces. -/
def get_file (b : BotState) (req : Request) (file_id : PyVal) :
    BotState × List Call × Except TgError TgFile :=
  (b,
   let url := b.base_url ++ "/getFile"
   let data : Params := [("file_id", file_id)]
   let result := req.postFn url data
   ([Call.post url data],
    match result with
    | PyVal.dict ps =>
      match getKey ps "file_path" with
      | some fp =>
        if truthy fp then
          let s := match fp with
            | PyVal.str s => s
            | _ => ""
          Except.ok (TgFile.de_json (PyVal.dict
            (setItem ps "file_path" (PyVal.str (b.base_file_url ++ "/" ++ s)))))
        else Except.ok (TgFile.de_json (PyVal.dict ps))
      | Option.none => Except.ok (TgFile.de_json (PyVal.dict ps))
    | _ => Except.error (TgError.attributeError "object has no attribute get")))

/-- `Bot.kick_chat_member` (bot.py lines 1121-1162): `until_date` is attached
whenever it is not `None`; datetime values are carried already converted to
timestamps, `telegram.utils.helpers.to_timestamp` not being under `src/`. -/
def kick_chat_member (b : BotState) (req : Request) (chat_id user_id until_date : PyVal) :
    BotState × List Call × PyVal :=
  (b,
   let url := b.base_url ++ "/kickChatMember"
   let data : Params := [("chat_id", chat_id), ("user_id", user_id)]
   let data := if !until_date.isNone then setItem data "until_date" until_date else data
   ([Call.post url data], req.postFn url data))

/-- `Bot.unban_chat_member` (bot.py lines 1165-1194). -/
def unban_chat_member (b : BotState) (req : Request) (chat_id user_id : PyVal) :
    BotState × List Call × PyVal :=
  (b,
   let url := b.base_url ++ "/unbanChatMember"
   let data : Params := [("chat_id", chat_id), ("user_id", user_id)]
   ([Call.post url data], req.postFn url data))

/-- Parameter map of `Bot.answer_callback_query` (bot.py lines 1241-1250): `text`,
`show_alert` and `url` are attached when truthy; `cache_time` is attached whenever
it is not `None`, so a falsy `0` is kept. -/
def answer_callback_query_data (callback_query_id text show_alert url cache_time : PyVal) :
    Params :=
  let data : Params := [("callback_query_id", callback_query_id)]
  let data := if truthy text then setItem data "text" text else data
  let data := if truthy show_alert then setItem data "show_alert" show_alert else data
  let data := if truthy url then setItem data "url" url else data
  let data := if !cache_time.isNone then setItem data "cache_time" cache_time else data
  data

/-- `Bot.answer_callback_query` (bot.py lines 1196-1255). -/
def answer_callback_query (b : BotState) (req : Request)
    (callback_query_id text show_alert url cache_time : PyVal) :
    BotState × List Call × PyVal :=
  (b,
   let u := b.base_url ++ "/answerCallbackQuery"
   let data := answer_callback_query_data callback_query_id text show_alert url cache_time
   ([Call.post u data], req.postFn u data))

/-- URL and parameter map of `Bot.edit_message_text` (bot.py lines 1301-1316): the
method performs no identifier validation; all optional parameters are attached
when truthy. -/
def edit_message_text_request (b : BotState)
    (text chat_id message_id inline_message_id parse_mode disable_web_page_preview : PyVal) :
    String × Params :=
  let url := b.base_url ++ "/editMessageText"
  let data : Params := [("text", text)]
  let data := if truthy chat_id then setItem data "chat_id" chat_id else data
  let data := if truthy message_id then setItem data "message_id" message_id else data
  let data := if truthy inline_message_id then
      setItem data "inline_message_id" inline_message_id
    else data
  let data := if truthy parse_mode then setItem data "parse_mode" parse_mode else data
  let data := if truthy disable_web_page_preview then
      setItem data "disable_web_page_preview" disable_web_page_preview
    else data
  (url, data)

/-- `Bot.edit_message_text` (bot.py lines 1257-1318), `message` decorator
included; the body contains no raise, so the result is always `ok`. -/
def edit_message_text (b : BotState) (req : Request)
    (text chat_id message_id inline_message_id parse_mode disable_web_page_preview : PyVal)
    (disable_notification reply_to_message_id reply_markup : PyVal) :
    BotState × List Call × Except TgError MsgResult :=
  (b,
   let r := edit_message_text_request b text chat_id message_id inline_message_id
       parse_mode disable_web_page_preview
   let w := message_wrapper req r.1 r.2 reply_to_message_id disable_notification reply_markup
   (w.1, Except.ok w.2))

/-- `Bot.edit_message_caption` (bot.py lines 1320-1376), `message` decorator
included: raises `TelegramError` when `inline_message_id` is `None` and `chat_id`
or `message_id` is `None`; otherwise builds the map (all parameters attached when
truthy) and posts. -/
def edit_message_caption (b : BotState) (req : Request)
    (chat_id message_id inline_message_id caption : PyVal)
    (disable_notification reply_to_message_id reply_markup : PyVal) :
    BotState × List Call × Except TgError MsgResult :=
  (b,
   if inline_message_id.isNone && (chat_id.isNone || message_id.isNone) then
     ([], Except.error (TgError.telegramError
       "editMessageCaption: Both chat_id and message_id are required when inline_message_id is not specified"))
   else
     let url := b.base_url ++ "/editMessageCaption"
     let data : Params := []
     let data := if truthy caption then setItem data "caption" caption else data
     let data := if truthy chat_id then setItem data "chat_id" chat_id else data
     let data := if truthy message_id then setItem data "message_id" message_id else data
     let data := if truthy inline_message_id then
         setItem data "inline_message_id" inline_message_id
       else data
     let w := message_wrapper req url data reply_to_message_id disable_notification reply_markup
     (w.1, Except.ok w.2))

/-- `Bot.edit_message_reply_markup` (bot.py lines 1378-1429), `message` decorator
included: same identifier validation as `edit_message_caption` (its error text
still says editMessageCaption in the source). -/
def edit_message_reply_markup (b : BotState) (req : Request)
    (chat_id message_id inline_message_id : PyVal)
    (disable_notification reply_to_message_id reply_markup : PyVal) :
    BotState × List Call × Except TgError MsgResult :=
  (b,
   if inline_message_id.isNone && (chat_id.isNone || message_id.isNone) then
     ([], Except.error (TgError.telegramError
       "editMessageCaption: Both chat_id and message_id are required when inline_message_id is not specified"))
   else
     let url := b.base_url ++ "/editMessageReplyMarkup"
     let data : Params := []
     let data := if truthy chat_id then setItem data "chat_id" chat_id else data
     let data := if truthy message_id then setItem data "message_id" message_id else data
     let data := if truthy inline_message_id then
         setItem data "inline_message_id" inline_message_id
       else data
     let w := message_wrapper req url data reply_to_message_id disable_notification reply_markup
     (w.1, Except.ok w.2))

/-- Parameter map of `Bot.get_updates` (bot.py lines 1483-1490): `timeout` is
always included; `offset` and `limit` only when truthy; `allowed_updates` whenever
it is not `None`. -/
def get_updates_data (offset limit timeout allowed_updates : PyVal) : Params :=
  let data : Params := [("timeout", timeout)]
  let data := if truthy offset then setItem data "offset" offset else data
  let data := if truthy limit then setItem data "limit" limit else data
  let data := if !allowed_updates.isNone then
      setItem data "allowed_updates" allowed_updates
    else data
  data

/-- `Bot.get_updates` (bot.py lines 1430-1505): POST, then parse each element of
the returned list via `Update.de_json`; read latency and the deprecated
`network_delay` only affect the transport read timeout, which the transport model
scopes out. -/
def get_updates (b : BotState) (req : Request) (offset limit timeout allowed_updates : PyVal) :
    BotState × List Call × Except TgError (List Update) :=
  (b,
   let url := b.base_url ++ "/getUpdates"
   let data := get_updates_data offset limit timeout allowed_updates
   let result := req.postFn url data
   ([Call.post url data], (pyIterList result).map (fun xs => xs.map Update.de_json)))

/-- Body of `Bot.set_webhook` after the `webhook_url` compatibility shim (bot.py
lines 1574-1587): `url` is attached whenever it is not `None`, `certificate` when
truthy, `max_connections` and `allowed_updates` whenever not `None`. -/
def set_webhook_post (b : BotState) (req : Request)
    (url certificate max_connections allowed_updates : PyVal) : List Call × Except TgError PyVal :=
  let u := b.base_url ++ "/setWebhook"
  let data : Params := []
  let data := if !url.isNone then setItem data "url" url else data
  let data := if truthy certificate then setItem data "certificate" certificate else data
  let data := if !max_connections.isNone then
      setItem data "max_connections" max_connections
    else data
  let data := if !allowed_updates.isNone then
      setItem data "allowed_updates" allowed_updates
    else data
  ([Call.post u data], Except.ok (req.postFn u data))

/-- `Bot.set_webhook` (bot.py lines 1506-1588): when the deprecated keyword
`webhook_url` is supplied together with `url`, raise `ValueError` before any
transport activity; when it is supplied alone it replaces `url`. -/
def set_webhook (b : BotState) (req : Request)
    (url certificate max_connections allowed_updates : PyVal) (webhook_url : Option PyVal) :
    BotState × List Call × Except TgError PyVal :=
  (b,
   match webhook_url with
   | some wu =>
     if !url.isNone then
       ([], Except.error (TgError.valueError
         "The parameters url and webhook_url are mutually exclusive"))
     else set_webhook_post b req wu certificate max_connections allowed_updates
   | Option.none => set_webhook_post b req url certificate max_connections allowed_updates)

/-- `Bot.delete_webhook` (bot.py lines 1590-1615). -/
def delete_webhook (b : BotState) (req : Request) : BotState × List Call × PyVal :=
  (b,
   let url := b.base_url ++ "/deleteWebhook"
   let data : Params := []
   ([Call.post url data], req.postFn url data))

/-- `Bot.leave_chat` (bot.py lines 1617-1643). -/
def leave_chat (b : BotState) (req : Request) (chat_id : PyVal) :
    BotState × List Call × PyVal :=
  (b,
   let url := b.base_url ++ "/leaveChat"
   let data : Params := [("chat_id", chat_id)]
   ([Call.post url data], req.postFn url data))

/-- `Bot.get_chat` (bot.py lines 1645-1672). -/
def get_chat (b : BotState) (req : Request) (chat_id : PyVal) :
    BotState × List Call × Chat :=
  (b,
   let url := b.base_url ++ "/getChat"
   let data : Params := [("chat_id", chat_id)]
   ([Call.post url data], Chat.de_json (req.postFn url data)))

/-- `Bot.get_chat_administrators` (bot.py lines 1674-1703): each element of the
returned list goes through `ChatMember.de_json`. -/
def get_chat_administrators (b : BotState) (req : Request) (chat_id : PyVal) :
    BotState × List Call × Except TgError (List ChatMember) :=
  (b,
   let url := b.base_url ++ "/getChatAdministrators"
   let data : Params := [("chat_id", chat_id)]
   let result := req.postFn url data
   ([Call.post url data], (pyIterList result).map (fun xs => xs.map ChatMember.de_json)))

/-- `Bot.get_chat_members_count` (bot.py lines 1705-1731). -/
def get_chat_members_count (b : BotState) (req : Request) (chat_id : PyVal) :
    BotState × List Call × PyVal :=
  (b,
   let url := b.base_url ++ "/getChatMembersCount"
   let data : Params := [("chat_id", chat_id)]
   ([Call.post url data], req.postFn url data))

/-- `Bot.get_chat_member` (bot.py lines 1733-1759). -/
def get_chat_member (b : BotState) (req : Request) (chat_id user_id : PyVal) :
    BotState × List Call × ChatMember :=
  (b,
   let url := b.base_url ++ "/getChatMember"
   let data : Params := [("chat_id", chat_id), ("user_id", user_id)]
   ([Call.post url data], ChatMember.de_json (req.postFn url data)))

/-- `Bot.get_webhook_info` (bot.py lines 1761-1783). -/
def get_webhook_info (b : BotState) (req : Request) : BotState × List Call × WebhookInfo :=
  (b,
   let url := b.base_url ++ "/getWebhookInfo"
   let data : Params := []
   ([Call.post url data], WebhookInfo.de_json (req.postFn url data)))

/-- URL and parameter map of `Bot.set_game_score` (bot.py lines 1829-1850):
`chat_id`, `message_id` and `inline_message_id` are attached when truthy; `force`
and `disable_edit_message` whenever not `None`; the deprecated `edit_message` is
attached only when `disable_edit_message` is `None` (otherwise it is ignored with
a warning). -/
def set_game_score_request (b : BotState)
    (user_id score chat_id message_id inline_message_id edit_message force
     disable_edit_message : PyVal) : String × Params :=
  let url := b.base_url ++ "/setGameScore"
  let data : Params := [("user_id", user_id), ("score", score)]
  let data := if truthy chat_id then setItem data "chat_id" chat_id else data
  let data := if truthy message_id then setItem data "message_id" message_id else data
  let data := if truthy inline_message_id then
      setItem data "inline_message_id" inline_message_id
    else data
  let data := if !force.isNone then setItem data "force" force else data
  let data := if !disable_edit_message.isNone then
      setItem data "disable_edit_message" disable_edit_message
    else data
  let data := if !edit_message.isNone then
      (if disable_edit_message.isNone then setItem data "edit_message" edit_message else data)
    else data
  (url, data)

/-- `Bot.set_game_score` (bot.py lines 1785-1851), `message` decorator included. -/
def set_game_score (b : BotState) (req : Request)
    (user_id score chat_id message_id inline_message_id edit_message force
     disable_edit_message : PyVal)
    (disable_notification reply_to_message_id reply_markup : PyVal) :
    BotState × List Call × MsgResult :=
  (b,
   let r := set_game_score_request b user_id score chat_id message_id inline_message_id
       edit_message force disable_edit_message
   message_wrapper req r.1 r.2 reply_to_message_id disable_notification reply_markup)

/-- `Bot.get_game_high_scores` (bot.py lines 1853-1898): the source builds its URL
with the `setGameScore` suffix (line 1884), posts there, and parses each element
of the result via `GameHighScore.de_json`. -/
def get_game_high_scores (b : BotState) (req : Request)
    (user_id chat_id message_id inline_message_id : PyVal) :
    BotState × List Call × Except TgError (List GameHighScore) :=
  (b,
   let url := b.base_url ++ "/setGameScore"
   let data : Params := [("user_id", user_id)]
   let data := if truthy chat_id then setItem data "chat_id" chat_id else data
   let data := if truthy message_id then setItem data "message_id" message_id else data
   let data := if truthy inline_message_id then
       setItem data "inline_message_id" inline_message_id
     else data
   let result := req.postFn url data
   ([Call.post url data], (pyIterList result).map (fun xs => xs.map GameHighScore.de_json)))

/-- URL and parameter map of `Bot.send_invoice` (bot.py lines 1974-2006): eight
required parameters with `prices` serialized via `to_dict`; the optional photo,
need and flexibility parameters are attached whenever not `None`. -/
def send_invoice_request (b : BotState)
    (chat_id title description payload provider_token start_parameter currency : PyVal)
    (prices : List LabeledPrice)
    (photo_url photo_size photo_width photo_height need_name need_phone_number need_email
     need_shipping_address is_flexible : PyVal) : String × Params :=
  let url := b.base_url ++ "/sendInvoice"
  let data : Params := [("chat_id", chat_id), ("title", title),
    ("description", description), ("payload", payload), ("provider_token", provider_token),
    ("start_parameter", start_parameter), ("currency", currency),
    ("prices", PyVal.list (prices.map LabeledPrice.to_dict))]
  let data := if !photo_url.isNone then setItem data "photo_url" photo_url else data
  let data := if !photo_size.isNone then setItem data "photo_size" photo_size else data
  let data := if !photo_width.isNone then setItem data "photo_width" photo_width else data
  let data := if !photo_height.isNone then setItem data "photo_height" photo_height else data
  let data := if !need_name.isNone then setItem data "need_name" need_name else data
  let data := if !need_phone_number.isNone then
      setItem data "need_phone_number" need_phone_number
    else data
  let data := if !need_email.isNone then setItem data "need_email" need_email else data
  let data := if !need_shipping_address.isNone then
      setItem data "need_shipping_address" need_shipping_address
    else data
  let data := if !is_flexible.isNone then setItem data "is_flexible" is_flexible else data
  (url, data)

/-- `Bot.send_invoice` (bot.py lines 1900-2006), `message` decorator included. -/
def send_invoice (b : BotState) (req : Request)
    (chat_id title description payload provider_token start_parameter currency : PyVal)
    (prices : List LabeledPrice)
    (photo_url photo_size photo_width photo_height need_name need_phone_number need_email
     need_shipping_address is_flexible : PyVal)
    (disable_notification reply_to_message_id reply_markup : PyVal) :
    BotState × List Call × MsgResult :=
  (b,
   let r := send_invoice_request b chat_id title description payload provider_token
       start_parameter currency prices photo_url photo_size photo_width photo_height
       need_name need_phone_number need_email need_shipping_address is_flexible
   message_wrapper req r.1 r.2 reply_to_message_id disable_notification reply_markup)

/-- `Bot.answer_shipping_query` (bot.py lines 2009-2072): after coercing `ok` to a
boolean, raises `TelegramError` when `ok` is true and `shipping_options` is `None`
or `error_message` is supplied, or when `ok` is false and `shipping_options` is
supplied or `error_message` is `None`; otherwise posts and returns the transport
result. The unreachable serialization of an absent options list is rendered
total with an empty default. -/
def answer_shipping_query (b : BotState) (req : Request) (shipping_query_id ok : PyVal)
    (shipping_options : Option (List ShippingOption)) (error_message : PyVal) :
    BotState × List Call × Except TgError PyVal :=
  (b,
   let okb := truthy ok
   if okb && (shipping_options.isNone || !error_message.isNone) then
     ([], Except.error (TgError.telegramError
       "answerShippingQuery: If ok is True, shipping_options should not be empty and there should not be error_message"))
   else if !okb && (shipping_options.isSome || error_message.isNone) then
     ([], Except.error (TgError.telegramError
       "answerShippingQuery: If ok is False, error_message should not be empty and there should not be shipping_options"))
   else
     let u := b.base_url ++ "/answerShippingQuery"
     let data : Params := [("shipping_query_id", shipping_query_id), ("ok", PyVal.bool okb)]
     let data := if okb then
         setItem data "shipping_options"
           (PyVal.list ((shipping_options.getD []).map ShippingOption.to_dict))
       else data
     let data := if !error_message.isNone then setItem data "error_message" error_message else data
     ([Call.post u data], Except.ok (req.postFn u data)))

/-- `Bot.answer_pre_checkout_query` (bot.py lines 2075-2132): after coercing `ok`
to a boolean, raises `TelegramError` unless `ok` differs from the presence of
`error_message` (the source `not (ok ^ (error_message is not None))` check);
otherwise posts and returns the transport result. -/
def answer_pre_checkout_query (b : BotState) (req : Request)
    (pre_checkout_query_id ok error_message : PyVal) :
    BotState × List Call × Except TgError PyVal :=
  (b,
   let okb := truthy ok
   if !(Bool.xor okb (!error_message.isNone)) then
     ([], Except.error (TgError.telegramError
       "answerPreCheckoutQuery: If ok is True, there should not be error_message; if ok is False, error_message should not be empty"))
   else
     let u := b.base_url ++ "/answerPreCheckoutQuery"
     let data : Params := [("pre_checkout_query_id", pre_checkout_query_id),
                           ("ok", PyVal.bool okb)]
     let data := if !error_message.isNone then setItem data "error_message" error_message else data
     ([Call.post u data], Except.ok (req.postFn u data)))

/-- `Bot.restrict_chat_member` (bot.py lines 2134-2195): `until_date` (already as
a timestamp, see `kick_chat_member`) and the four permission flags are attached
whenever not `None`. -/
def restrict_chat_member (b : BotState) (req : Request)
    (chat_id user_id until_date can_send_messages can_send_media_messages
     can_send_other_messages can_add_web_page_previews : PyVal) :
    BotState × List Call × PyVal :=
  (b,
   let url := b.base_url ++ "/restrictChatMember"
   let data : Params := [("chat_id", chat_id), ("user_id", user_id)]
   let data := if !until_date.isNone then setItem data "until_date" until_date else data
   let data := if !can_send_messages.isNone then
       setItem data "can_send_messages" can_send_messages
     else data
   let data := if !can_send_media_messages.isNone then
       setItem data "can_send_media_messages" can_send_media_messages
     else data
   let data := if !can_send_other_messages.isNone then
       setItem data "can_send_other_messages" can_send_other_messages
     else data
   let data := if !can_add_web_page_previews.isNone then
       setItem data "can_add_web_page_previews" can_add_web_page_previews
     else data
   ([Call.post url data], req.postFn url data))

/-- `Bot.promote_chat_member` (bot.py lines 2197-2246): the eight admin right
flags are attached whenever not `None`. -/
def promote_chat_member (b : BotState) (req : Request)
    (chat_id user_id can_change_info can_post_messages can_edit_messages
     can_delete_messages can_invite_users can_restrict_members can_pin_messages
     can_promote_members : PyVal) :
    BotState × List Call × PyVal :=
  (b,
   let url := b.base_url ++ "/promoteChatMember"
   let data : Params := [("chat_id", chat_id), ("user_id", user_id)]
   let data := if !can_change_info.isNone then setItem data "can_change_info" can_change_info else data
   let data := if !can_post_messages.isNone then
       setItem data "can_post_messages" can_post_messages
     else data
   let data := if !can_edit_messages.isNone then
       setItem data "can_edit_messages" can_edit_messages
     else data
   let data := if !can_delete_messages.isNone then
       setItem data "can_delete_messages" can_delete_messages
     else data
   let data := if !can_invite_users.isNone then
       setItem data "can_invite_users" can_invite_users
     else data
   let data := if !can_restrict_members.isNone then
       setItem data "can_restrict_members" can_restrict_members
     else data
   let data := if !can_pin_messages.isNone then
       setItem data "can_pin_messages" can_pin_messages
     else data
   let data := if !can_promote_members.isNone then
       setItem data "can_promote_members" can_promote_members
     else data
   ([Call.post url data], req.postFn url data))

/-- `Bot.export_chat_invite_link` (bot.py lines 2248-2275). -/
def export_chat_invite_link (b : BotState) (req : Request) (chat_id : PyVal) :
    BotState × List Call × PyVal :=
  (b,
   let url := b.base_url ++ "/exportChatInviteLink"
   let data : Params := [("chat_id", chat_id)]
   ([Call.post url data], req.postFn url data))

/-- `Bot.set_chat_photo` (bot.py lines 2277-2310). -/
def set_chat_photo (b : BotState) (req : Request) (chat_id photo : PyVal) :
    BotState × List Call × PyVal :=
  (b,
   let url := b.base_url ++ "/setChatPhoto"
   let data : Params := [("chat_id", chat_id), ("photo", photo)]
   ([Call.post url data], req.postFn url data))

/-- `Bot.delete_chat_photo` (bot.py lines 2312-2344). -/
def delete_chat_photo (b : BotState) (req : Request) (chat_id : PyVal) :
    BotState × List Call × PyVal :=
  (b,
   let url := b.base_url ++ "/deleteChatPhoto"
   let data : Params := [("chat_id", chat_id)]
   ([Call.post url data], req.postFn url data))

/-- `Bot.set_chat_title` (bot.py lines 2346-2379). -/
def set_chat_title (b : BotState) (req : Request) (chat_id title : PyVal) :
    BotState × List Call × PyVal :=
  (b,
   let url := b.base_url ++ "/setChatTitle"
   let data : Params := [("chat_id", chat_id), ("title", title)]
   ([Call.post url data], req.postFn url data))

/-- `Bot.set_chat_description` (bot.py lines 2381-2409). -/
def set_chat_description (b : BotState) (req : Request) (chat_id description : PyVal) :
    BotState × List Call × PyVal :=
  (b,
   let url := b.base_url ++ "/setChatDescription"
   let data : Params := [("chat_id", chat_id), ("description", description)]
   ([Call.post url data], req.postFn url data))

/-- `Bot.pin_chat_message` (bot.py lines 2411-2446): `disable_notification` is
attached whenever it is not `None`. -/
def pin_chat_message (b : BotState) (req : Request)
    (chat_id message_id disable_notification : PyVal) :
    BotState × List Call × PyVal :=
  (b,
   let url := b.base_url ++ "/pinChatMessage"
   let data : Params := [("chat_id", chat_id), ("message_id", message_id)]
   let data := if !disable_notification.isNone then
       setItem data "disable_notification" disable_notification
     else data
   ([Call.post url data], req.postFn url data))

/-- `Bot.unpin_chat_message` (bot.py lines 2448-2475). -/
def unpin_chat_message (b : BotState) (req : Request) (chat_id : PyVal) :
    BotState × List Call × PyVal :=
  (b,
   let url := b.base_url ++ "/unpinChatMessage"
   let data : Params := [("chat_id", chat_id)]
   ([Call.post url data], req.postFn url data))

/-- `Bot.to_dict` (bot.py lines 2484-2490) read under a populated identity cache
`u`: the source maps the key id to `self.id`, username to `self.username`, and —
as written on line 2485 — first_name to `self.username`; last_name is added only
when `self.last_name` is truthy. -/
def bot_to_dict (u : User) : Params :=
  let data : Params := [("id", PyVal.int u.id), ("username", PyVal.str u.username),
                        ("first_name", PyVal.str u.username)]
  if truthy (pyOptStr u.last_name) then setItem data "last_name" (pyOptStr u.last_name)
  else data

/-- Modelled from the spec: `TelegramObject.de_json` (class `telegram.base`, not
under `src/`) turns the key-value wire representation into a plain keyword
dictionary; modelled as the identity on the parameter map. -/
def TelegramObject.de_json (data : Params) : Params := data

/-- Keyword names accepted by `Bot.__init__` (bot.py line 90). -/
def bot_init_keywords : List String := ["token", "base_url", "base_file_url", "request"]

/-- Python string projection for keyword values handed to the constructor. -/
def pyAsStr : PyVal → Option String
  | PyVal.str s => some s
  | _ => Option.none

/-- Python call `Bot(**data)` against `Bot.__init__(self, token, base_url=None,
base_file_url=None, request=None)` (bot.py line 90): a key outside the signature
or a missing `token` raises `TypeError`; a non-string token raises `TypeError`
when the validator iterates it; otherwise the constructor runs. -/
def bot_of_kwargs (data : Params) : Except TgError BotState :=
  if data.any (fun kv => !(bot_init_keywords.contains kv.1)) then
    Except.error (TgError.typeError "unexpected keyword argument")
  else
    match getKey data "token" with
    | Option.none => Except.error (TgError.typeError "missing required argument token")
    | some tokv =>
      match pyAsStr tokv with
      | Option.none => Except.error (TgError.typeError "token is not a string")
      | some tok =>
        bot_init tok ((getKey data "base_url").bind pyAsStr)
          ((getKey data "base_file_url").bind pyAsStr)

/-- `Bot.de_json` (bot.py lines 2478-2482): run the generic wire conversion, then
call the constructor with the resulting keyword dictionary. -/
def bot_de_json (data : Params) : Except TgError BotState :=
  bot_of_kwargs (TelegramObject.de_json data)

/-- The camelCase alias `getMe = get_me` (bot.py line 2498). -/
def getMe := get_me

/-- The camelCase alias `sendMessage = send_message` (bot.py line 2499). -/
def sendMessage := send_message

/-- The camelCase alias `deleteMessage = delete_message` (bot.py line 2500). -/
def deleteMessage := delete_message

/-- The camelCase alias `forwardMessage = forward_message` (bot.py line 2501). -/
def forwardMessage := forward_message

/-- The camelCase alias `sendPhoto = send_photo` (bot.py line 2502). -/
def sendPhoto := send_photo

/-- The camelCase alias `sendAudio = send_audio` (bot.py line 2503). -/
def sendAudio := send_audio

/-- The camelCase alias `sendDocument = send_document` (bot.py line 2504). -/
def sendDocument := send_document

/-- The camelCase alias `sendSticker = send_sticker` (bot.py line 2505). -/
def sendSticker := send_sticker

/-- The camelCase alias `sendVideo = send_video` (bot.py line 2506). -/
def sendVideo := send_video

/-- The camelCase alias `sendVoice = send_voice` (bot.py line 2507). -/
def sendVoice := send_voice

/-- The camelCase alias `sendVideoNote = send_video_note` (bot.py line 2508). -/
def sendVideoNote := send_video_note

/-- The camelCase alias `sendLocation = send_location` (bot.py line 2509). -/
def sendLocation := send_location

/-- The camelCase alias `sendVenue = send_venue` (bot.py line 2510). -/
def sendVenue := send_venue

/-- The camelCase alias `sendContact = send_contact` (bot.py line 2511). -/
def sendContact := send_contact

/-- The camelCase alias `sendGame = send_game` (bot.py line 2512). -/
def sendGame := send_game

/-- The camelCase alias `sendChatAction = send_chat_action` (bot.py line 2513). -/
def sendChatAction := send_chat_action

/-- The camelCase alias `answerInlineQuery = answer_inline_query` (bot.py line 2514). -/
def answerInlineQuery := answer_inline_query

/-- The camelCase alias `getUserProfilePhotos = get_user_profile_photos` (bot.py line 2515). -/
def getUserProfilePhotos := get_user_profile_photos

/-- The camelCase alias `getFile = get_file` (bot.py line 2516). -/
def getFile := get_file

/-- The camelCase alias `kickChatMember = kick_chat_member` (bot.py line 2517). -/
def kickChatMember := kick_chat_member

/-- The camelCase alias `unbanChatMember = unban_chat_member` (bot.py line 2518). -/
def unbanChatMember := unban_chat_member

/-- The camelCase alias `answerCallbackQuery = answer_callback_query` (bot.py line 2519). -/
def answerCallbackQuery := answer_callback_query

/-- The camelCase alias `editMessageText = edit_message_text` (bot.py line 2520). -/
def editMessageText := edit_message_text

/-- The camelCase alias `editMessageCaption = edit_message_caption` (bot.py line 2521). -/
def editMessageCaption := edit_message_caption

/-- The camelCase alias `editMessageReplyMarkup = edit_message_reply_markup` (bot.py line 2522). -/
def editMessageReplyMarkup := edit_message_reply_markup

/-- The camelCase alias `getUpdates = get_updates` (bot.py line 2523). -/
def getUpdates := get_updates

/-- The camelCase alias `setWebhook = set_webhook` (bot.py line 2524). -/
def setWebhook := set_webhook

/-- The camelCase alias `deleteWebhook = delete_webhook` (bot.py line 2525). -/
def deleteWebhook := delete_webhook

/-- The camelCase alias `leaveChat = leave_chat` (bot.py line 2526). -/
def leaveChat := leave_chat

/-- The camelCase alias `getChat = get_chat` (bot.py line 2527). -/
def getChat := get_chat

/-- The camelCase alias `getChatAdministrators = get_chat_administrators` (bot.py line 2528). -/
def getChatAdministrators := get_chat_administrators

/-- The camelCase alias `getChatMember = get_chat_member` (bot.py line 2529). -/
def getChatMember := get_chat_member

/-- The camelCase alias `getChatMembersCount = get_chat_members_count` (bot.py line 2530). -/
def getChatMembersCount := get_chat_members_count

/-- The camelCase alias `getWebhookInfo = get_webhook_info` (bot.py line 2531). -/
def getWebhookInfo := get_webhook_info

/-- The camelCase alias `setGameScore = set_game_score` (bot.py line 2532). -/
def setGameScore := set_game_score

/-- The camelCase alias `getGameHighScores = get_game_high_scores` (bot.py line 2533). -/
def getGameHighScores := get_game_high_scores

/-- The camelCase alias `sendInvoice = send_invoice` (bot.py line 2534). -/
def sendInvoice := send_invoice

/-- The camelCase alias `answerShippingQuery = answer_shipping_query` (bot.py line 2535). -/
def answerShippingQuery := answer_shipping_query

/-- The camelCase alias `answerPreCheckoutQuery = answer_pre_checkout_query` (bot.py line 2536). -/
def answerPreCheckoutQuery := answer_pre_checkout_query

/-- The camelCase alias `restrictChatMember = restrict_chat_member` (bot.py line 2537). -/
def restrictChatMember := restrict_chat_member

/-- The camelCase alias `promoteChatMember = promote_chat_member` (bot.py line 2538). -/
def promoteChatMember := promote_chat_member

/-- The camelCase alias `exportChatInviteLink = export_chat_invite_link` (bot.py line 2539). -/
def exportChatInviteLink := export_chat_invite_link

/-- The camelCase alias `setChatPhoto = set_chat_photo` (bot.py line 2540). -/
def setChatPhoto := set_chat_photo

/-- The camelCase alias `deleteChatPhoto = delete_chat_photo` (bot.py line 2541). -/
def deleteChatPhoto := delete_chat_photo

/-- The camelCase alias `setChatTitle = set_chat_title` (bot.py line 2542). -/
def setChatTitle := set_chat_title

/-- The camelCase alias `setChatDescription = set_chat_description` (bot.py line 2543). -/
def setChatDescription := set_chat_description

/-- The camelCase alias `pinChatMessage = pin_chat_message` (bot.py line 2544). -/
def pinChatMessage := pin_chat_message

/-- The camelCase alias `unpinChatMessage = unpin_chat_message` (bot.py line 2545). -/
def unpinChatMessage := unpin_chat_message

/-- A concrete bot state used by the closed theorems: the state produced by
constructing a bot with the token 123:abc and the default base URLs. -/
def sampleBot : BotState :=
  { token := "123:abc",
    base_url := "https://api.telegram.org/bot123:abc",
    base_file_url := "https://api.telegram.org/file/bot123:abc",
    bot := Option.none }

/-- A concrete transport used by the closed theorems: every POST acknowledges
with the boolean `True` and every GET returns `None`. -/
def sampleReq : Request :=
  { postFn := fun _ _ => PyVal.bool true, getFn := fun _ => PyVal.none }

/-- A concrete cached identity used by the closed theorems: id 1, first name
Alice, no last name, username bob. -/
def sampleUser : User :=
  { id := 1, first_name := "Alice", last_name := Option.none, username := "bob" }

theorem getKey_setItem_self (d : Params) (k : String) (v : PyVal) :
    getKey (setItem d k v) k = some v := by
  induction d with
  | nil => simp [setItem, getKey]
  | cons kv rest ih =>
    obtain ⟨k0, v0⟩ := kv
    by_cases h : k0 = k
    · simp [setItem, getKey, h]
    · simp [setItem, getKey, h, ih]

theorem getKey_setItem_other (d : Params) (k k1 : String) (v : PyVal) (h : k1 ≠ k) :
    getKey (setItem d k v) k1 = getKey d k1 := by
  induction d with
  | nil => simp [setItem, getKey, Ne.symm h]
  | cons kv rest ih =>
    obtain ⟨k0, v0⟩ := kv
    by_cases h0 : k0 = k
    · subst h0
      simp [setItem, getKey, Ne.symm h]
    · simp [setItem, getKey, h0, ih]

theorem getKey_ite (c : Bool) (d1 d2 : Params) (k : String) :
    getKey (if c then d1 else d2) k = if c then getKey d1 k else getKey d2 k := by
  cases c <;> simp

theorem getKey_if (c : Prop) [Decidable c] (d1 d2 : Params) (k : String) :
    getKey (if c then d1 else d2) k = if c then getKey d1 k else getKey d2 k := by
  by_cases h : c <;> simp [h]

theorem partitionColon_fst (cs : List Char) :
    (partitionColon cs).1 = cs.takeWhile (fun c => !(c == ':')) := by
  induction cs with
  | nil => rfl
  | cons c cs ih =>
    by_cases h : c = ':'
    · subst h
      simp [partitionColon, List.takeWhile]
    · have hb : (c == ':') = false := by simp [h]
      simp [partitionColon, h, List.takeWhile, hb, ih]

theorem partitionColon_sep (cs : List Char) :
    (partitionColon cs).2.1 = cs.contains ':' := by
  induction cs with
  | nil => rfl
  | cons c cs ih =>
    by_cases h : c = ':'
    · subst h
      simp [partitionColon, List.contains]
    · have hb : (c == ':') = false := by simp [h]
      simp [partitionColon, h, ih, List.contains, hb]
      exact fun heq => absurd heq.symm h

/-- Claim-side characterization of an invalid token, written from the words of
the claim: the token contains a whitespace character, or contains no colon
separator, or the part before the first colon is not entirely digits, or that
part is shorter than 3 characters. -/
def claimTokenInvalid (token : String) : Bool :=
  token.data.any pyIsSpace
  || !(token.data.contains ':')
  || !((token.data.takeWhile (fun c => !(c == ':'))).all pyIsDigitChar)
  || decide ((token.data.takeWhile (fun c => !(c == ':'))).length < 3)

theorem validate_token_eq_claim (token : String) :
    validate_token token =
      (if claimTokenInvalid token = true then Except.error TgError.invalidToken
       else Except.ok token) := by
  have hf := partitionColon_fst token.data
  have hs := partitionColon_sep token.data
  unfold validate_token claimTokenInvalid pyStrIsDigit
  simp only [hf, hs]
  cases hws : token.data.any pyIsSpace with
  | true => simp [hws]
  | false =>
    cases hct : token.data.contains ':' with
    | false => simp [hws, hct]
    | true =>
      cases htw : token.data.takeWhile (fun c => !(c == ':')) with
      | nil => simp [hws, hct, htw]
      | cons a l =>
        cases hall : (a :: l).all pyIsDigitChar with
        | false => simp [hws, hct, htw, hall]
        | true =>
          cases hlen : decide ((a :: l).length < 3) with
          | false => simp [hws, hct, htw, hall, hlen]
          | true => simp [hws, hct, htw, hall, hlen]

/-- C1: the claim says every facade method posts to its own distinct per-method
endpoint suffix, with `get_game_high_scores` posting to `base_url/getGameHighScores`.
The code instead builds the `get_game_high_scores` URL with the `setGameScore`
suffix (bot.py line 1884), so the method posts to the same URL as `set_game_score`
and not to `base_url/getGameHighScores`: evaluated here at a concrete bot, user id
7 and score 99 with all optional identifiers `None`. -/
theorem get_game_high_scores_posts_to_setGameScore :
    (get_game_high_scores sampleBot sampleReq (PyVal.int 7)
        PyVal.none PyVal.none PyVal.none).2.1 =
      [Call.post (sampleBot.base_url ++ "/setGameScore") [("user_id", PyVal.int 7)]] ∧
    (set_game_score sampleBot sampleReq (PyVal.int 7) (PyVal.int 99) PyVal.none PyVal.none
        PyVal.none PyVal.none PyVal.none PyVal.none PyVal.none PyVal.none PyVal.none).2.1 =
      [Call.post (sampleBot.base_url ++ "/setGameScore")
        [("user_id", PyVal.int 7), ("score", PyVal.int 99)]] ∧
    sampleBot.base_url ++ "/setGameScore" ≠ sampleBot.base_url ++ "/getGameHighScores" :=
  ⟨rfl, rfl, by decide⟩

/-- C2: the claim says `to_dict` maps the key first_name to the cached first
name and that `de_json` applied to the result reconstructs an equivalent object.
The code maps first_name to `self.username` (bot.py line 2485), and `de_json`
calls `Bot(**data)` (line 2481) whose constructor accepts only `token`,
`base_url`, `base_file_url` and `request`, so the round trip raises `TypeError`:
evaluated here at a cached identity with first name Alice and username bob. -/
theorem bot_to_dict_maps_first_name_to_username :
    bot_to_dict sampleUser =
      [("id", PyVal.int 1), ("username", PyVal.str "bob"), ("first_name", PyVal.str "bob")] ∧
    bot_de_json (bot_to_dict sampleUser) =
      Except.error (TgError.typeError "unexpected keyword argument") :=
  ⟨rfl, rfl⟩

/-- C3: constructing a bot raises `InvalidToken` exactly when the token contains
whitespace, or has no colon, or its part before the first colon is not entirely
digits or is shorter than 3 characters; on every other token the constructor
succeeds, stores the token unchanged in `self.token`, and appends it to the two
base URLs. The embedded constructor takes no transport, reflecting that
construction performs no network activity. -/
theorem bot_init_token_validation (token : String) (bu bfu : Option String) :
    (claimTokenInvalid token = true →
       bot_init token bu bfu = Except.error TgError.invalidToken) ∧
    (claimTokenInvalid token = false →
       bot_init token bu bfu =
         Except.ok { token := token,
                     base_url := bu.getD "https://api.telegram.org/bot" ++ token,
                     base_file_url := bfu.getD "https://api.telegram.org/file/bot" ++ token,
                     bot := Option.none }) := by
  unfold bot_init
  rw [validate_token_eq_claim]
  constructor
  · intro h
    simp [h]
  · intro h
    simp [h]

/-- Witness for C3: the well-formed token 123:abc is accepted and stored
unchanged, while 12:a (numeric part too short) is rejected with `InvalidToken`. -/
theorem bot_init_token_validation_witness :
    bot_init "123:abc" Option.none Option.none =
      Except.ok { token := "123:abc",
                  base_url := "https://api.telegram.org/bot123:abc",
                  base_file_url := "https://api.telegram.org/file/bot123:abc",
                  bot := Option.none } ∧
    bot_init "12:a" Option.none Option.none = Except.error TgError.invalidToken :=
  ⟨(bot_init_token_validation "123:abc" Option.none Option.none).2 (by decide),
   (bot_init_token_validation "12:a" Option.none Option.none).1 (by decide)⟩

/-- C4 counterexample: the claim says the three edit methods raise `TelegramError`
unless exactly one identifier alternative is supplied. At concrete inputs,
`edit_message_text` with no identifier at all completes normally (it contains no
validation), and `edit_message_caption` with all three identifiers supplied also
completes normally, refuting the claim as stated. -/
theorem edit_message_without_identifier_completes :
    (edit_message_text sampleBot sampleReq (PyVal.str "hi") PyVal.none PyVal.none PyVal.none
        PyVal.none PyVal.none PyVal.none PyVal.none PyVal.none).2.2 =
      Except.ok MsgResult.boolTrue ∧
    (edit_message_caption sampleBot sampleReq (PyVal.int 1) (PyVal.int 2) (PyVal.str "im")
        (PyVal.str "cap") PyVal.none PyVal.none PyVal.none).2.2 =
      Except.ok MsgResult.boolTrue :=
  ⟨rfl, rfl⟩

/-- C4 (amended): `edit_message_caption` and `edit_message_reply_markup` raise
`TelegramError` exactly when `inline_message_id` is absent and `chat_id` or
`message_id` is absent (supplying all three identifiers is accepted), while
`edit_message_text` performs no identifier validation and never raises locally. -/
theorem edit_message_identifier_validation (b : BotState) (req : Request)
    (text chat_id message_id inline_message_id caption parse_mode
     disable_web_page_preview dn rtm rm : PyVal) :
    ((∃ e, (edit_message_caption b req chat_id message_id inline_message_id caption
        dn rtm rm).2.2 = Except.error e) ↔
      (inline_message_id.isNone && (chat_id.isNone || message_id.isNone)) = true) ∧
    ((∃ e, (edit_message_reply_markup b req chat_id message_id inline_message_id
        dn rtm rm).2.2 = Except.error e) ↔
      (inline_message_id.isNone && (chat_id.isNone || message_id.isNone)) = true) ∧
    (∃ r, (edit_message_text b req text chat_id message_id inline_message_id parse_mode
        disable_web_page_preview dn rtm rm).2.2 = Except.ok r) := by
  refine ⟨?_, ?_, ⟨_, rfl⟩⟩
  · unfold edit_message_caption
    cases h : (inline_message_id.isNone && (chat_id.isNone || message_id.isNone)) <;> simp [h]
  · unfold edit_message_reply_markup
    cases h : (inline_message_id.isNone && (chat_id.isNone || message_id.isNone)) <;> simp [h]

/-- Witness for C4 (amended): `edit_message_caption` with every identifier absent
raises, and `edit_message_text` with every identifier absent still completes. -/
theorem edit_message_identifier_validation_witness :
    (∃ e, (edit_message_caption sampleBot sampleReq PyVal.none PyVal.none PyVal.none
        PyVal.none PyVal.none PyVal.none PyVal.none).2.2 = Except.error e) ∧
    (∃ r, (edit_message_text sampleBot sampleReq (PyVal.str "hi") PyVal.none PyVal.none
        PyVal.none PyVal.none PyVal.none PyVal.none PyVal.none PyVal.none).2.2 =
      Except.ok r) :=
  ⟨(edit_message_identifier_validation sampleBot sampleReq (PyVal.str "hi") PyVal.none
      PyVal.none PyVal.none PyVal.none PyVal.none PyVal.none PyVal.none PyVal.none
      PyVal.none).1.mpr rfl,
   (edit_message_identifier_validation sampleBot sampleReq (PyVal.str "hi") PyVal.none
      PyVal.none PyVal.none PyVal.none PyVal.none PyVal.none PyVal.none PyVal.none
      PyVal.none).2.2⟩

/-- C5: `answer_pre_checkout_query` raises `TelegramError` exactly when `ok` is
truthy and `error_message` is supplied or `ok` is falsy and `error_message` is
absent; `answer_shipping_query` raises exactly when `ok` is truthy and
`shipping_options` is absent or `error_message` is supplied, or `ok` is falsy and
`shipping_options` is supplied or `error_message` is absent; and on every
non-raising input each method performs exactly one POST to its endpoint and
returns the transport result. -/
theorem answer_query_validation (b : BotState) (req : Request)
    (shipping_query_id pre_checkout_query_id ok error_message : PyVal)
    (shipping_options : Option (List ShippingOption)) :
    ((∃ e, (answer_pre_checkout_query b req pre_checkout_query_id ok error_message).2.2 =
        Except.error e) ↔
      ((truthy ok && !error_message.isNone) || (!truthy ok && error_message.isNone)) = true) ∧
    ((∃ e, (answer_shipping_query b req shipping_query_id ok shipping_options
        error_message).2.2 = Except.error e) ↔
      ((truthy ok && (shipping_options.isNone || !error_message.isNone))
        || (!truthy ok && (shipping_options.isSome || error_message.isNone))) = true) ∧
    (((truthy ok && !error_message.isNone) || (!truthy ok && error_message.isNone)) = false →
      ∃ d, (answer_pre_checkout_query b req pre_checkout_query_id ok error_message).2.1 =
          [Call.post (b.base_url ++ "/answerPreCheckoutQuery") d] ∧
        (answer_pre_checkout_query b req pre_checkout_query_id ok error_message).2.2 =
          Except.ok (req.postFn (b.base_url ++ "/answerPreCheckoutQuery") d)) ∧
    (((truthy ok && (shipping_options.isNone || !error_message.isNone))
        || (!truthy ok && (shipping_options.isSome || error_message.isNone))) = false →
      ∃ d, (answer_shipping_query b req shipping_query_id ok shipping_options
          error_message).2.1 = [Call.post (b.base_url ++ "/answerShippingQuery") d] ∧
        (answer_shipping_query b req shipping_query_id ok shipping_options
          error_message).2.2 =
          Except.ok (req.postFn (b.base_url ++ "/answerShippingQuery") d)) := by
  unfold answer_pre_checkout_query answer_shipping_query
  refine ⟨?_, ?_, ?_, ?_⟩
  · cases hok : truthy ok <;> cases hem : error_message.isNone <;>
      simp [hok, hem, Bool.xor]
  · cases hok : truthy ok <;> cases hso : shipping_options <;>
      cases hem : error_message.isNone <;> simp [hok, hem]
  · intro h
    cases hok : truthy ok <;> cases hem : error_message.isNone <;>
      simp [hok, hem, Bool.xor] at h ⊢
  · intro h
    cases hok : truthy ok <;> cases hso : shipping_options <;>
      cases hem : error_message.isNone <;> simp [hok, hem, hso] at h ⊢

/-- Witness for C5: with `ok` true and an `error_message` supplied,
`answer_pre_checkout_query` raises; with `ok` true and no `error_message`, it
posts once to the `answerPreCheckoutQuery` endpoint and returns the transport
result (`True` under the sample transport). -/
theorem answer_query_validation_witness :
    (∃ e, (answer_pre_checkout_query sampleBot sampleReq (PyVal.str "q") (PyVal.bool true)
        (PyVal.str "oops")).2.2 = Except.error e) ∧
    (∃ d, (answer_pre_checkout_query sampleBot sampleReq (PyVal.str "q") (PyVal.bool true)
        PyVal.none).2.1 = [Call.post (sampleBot.base_url ++ "/answerPreCheckoutQuery") d] ∧
      (answer_pre_checkout_query sampleBot sampleReq (PyVal.str "q") (PyVal.bool true)
        PyVal.none).2.2 =
        Except.ok (sampleReq.postFn (sampleBot.base_url ++ "/answerPreCheckoutQuery") d)) :=
  ⟨(answer_query_validation sampleBot sampleReq (PyVal.str "s") (PyVal.str "q")
      (PyVal.bool true) (PyVal.str "oops") Option.none).1.mpr rfl,
   (answer_query_validation sampleBot sampleReq (PyVal.str "s") (PyVal.str "q")
      (PyVal.bool true) PyVal.none Option.none).2.2.1 rfl⟩

/-- C6: a `message`-decorated facade method performs exactly one POST of the
merged map; the response is `True` exactly when the transport returns the boolean
`True` and otherwise `Message.de_json` of the transport result; merging attaches
`reply_to_message_id`, `disable_notification` and `reply_markup` exactly when
truthy (leaving them untouched otherwise), serializes a `ReplyMarkup` instance
via its `to_json`, passes any other truthy `reply_markup` through unchanged, and
touches no other key. -/
theorem message_wrapper_shaping (req : Request) (url : String) (data : Params)
    (rtm dn rm : PyVal) :
    (message_wrapper req url data rtm dn rm).1 =
      [Call.post url (message_wrapper_data data rtm dn rm)] ∧
    ((req.postFn url (message_wrapper_data data rtm dn rm)).isTrue = true →
      (message_wrapper req url data rtm dn rm).2 = MsgResult.boolTrue) ∧
    ((req.postFn url (message_wrapper_data data rtm dn rm)).isTrue = false →
      (message_wrapper req url data rtm dn rm).2 =
        MsgResult.msg (Message.de_json (req.postFn url (message_wrapper_data data rtm dn rm)))) ∧
    (truthy rtm = true →
      getKey (message_wrapper_data data rtm dn rm) "reply_to_message_id" = some rtm) ∧
    (truthy rtm = false →
      getKey (message_wrapper_data data rtm dn rm) "reply_to_message_id" =
        getKey data "reply_to_message_id") ∧
    (truthy dn = true →
      getKey (message_wrapper_data data rtm dn rm) "disable_notification" = some dn) ∧
    (truthy dn = false →
      getKey (message_wrapper_data data rtm dn rm) "disable_notification" =
        getKey data "disable_notification") ∧
    (∀ j, rm = PyVal.replyMarkup j →
      getKey (message_wrapper_data data rtm dn rm) "reply_markup" = some (PyVal.str j)) ∧
    (truthy rm = true → (∀ j, rm ≠ PyVal.replyMarkup j) →
      getKey (message_wrapper_data data rtm dn rm) "reply_markup" = some rm) ∧
    (truthy rm = false →
      getKey (message_wrapper_data data rtm dn rm) "reply_markup" =
        getKey data "reply_markup") ∧
    (∀ k, k ≠ "reply_to_message_id" → k ≠ "disable_notification" → k ≠ "reply_markup" →
      getKey (message_wrapper_data data rtm dn rm) k = getKey data k) := by
  refine ⟨rfl, ?_, ?_, ?_, ?_, ?_, ?_, ?_, ?_, ?_, ?_⟩
  · intro h
    simp [message_wrapper, h]
  · intro h
    simp [message_wrapper, h]
  · intro h
    unfold message_wrapper_data
    cases hrm : truthy rm
    · simp [h, hrm, getKey_ite, getKey_setItem_self, getKey_setItem_other]
    · cases rm <;>
        simp [h, hrm, getKey_ite, getKey_setItem_self, getKey_setItem_other]
  · intro h
    unfold message_wrapper_data
    cases hrm : truthy rm
    · simp [h, hrm, getKey_ite, getKey_setItem_other]
    · cases rm <;> simp [h, hrm, getKey_ite, getKey_setItem_other]
  · intro h
    unfold message_wrapper_data
    cases hrm : truthy rm
    · simp [h, hrm, getKey_ite, getKey_setItem_self, getKey_setItem_other]
    · cases rm <;>
        simp [h, hrm, getKey_ite, getKey_setItem_self, getKey_setItem_other]
  · intro h
    unfold message_wrapper_data
    cases hrm : truthy rm
    · simp [h, hrm, getKey_ite, getKey_setItem_other]
    · cases rm <;> simp [h, hrm, getKey_ite, getKey_setItem_other]
  · intro j hj
    subst hj
    unfold message_wrapper_data
    simp [truthy, getKey_ite, getKey_setItem_self, getKey_setItem_other]
  · intro h hne
    unfold message_wrapper_data
    cases rm <;> first
      | exact absurd rfl (hne _)
      | simp_all [getKey_ite, getKey_setItem_self, getKey_setItem_other]
  · intro h
    unfold message_wrapper_data
    simp [h, getKey_ite, getKey_setItem_other]
  · intro k h1 h2 h3
    unfold message_wrapper_data
    cases hrm : truthy rm
    · simp [hrm, getKey_ite, getKey_setItem_other, h1, h2, h3]
    · cases rm <;> simp [hrm, getKey_ite, getKey_setItem_other, h1, h2, h3]

/-- Witness for C6: under the sample transport (whose POSTs return `True`) the
wrapper returns `True`; a truthy `reply_to_message_id` of 5 is merged; and a
`ReplyMarkup` instance is merged as its JSON serialization. -/
theorem message_wrapper_shaping_witness :
    (message_wrapper sampleReq "u" [] PyVal.none PyVal.none PyVal.none).2 =
      MsgResult.boolTrue ∧
    getKey (message_wrapper_data [] (PyVal.int 5) PyVal.none (PyVal.replyMarkup "mk"))
        "reply_to_message_id" = some (PyVal.int 5) ∧
    getKey (message_wrapper_data [] (PyVal.int 5) PyVal.none (PyVal.replyMarkup "mk"))
        "reply_markup" = some (PyVal.str "mk") :=
  ⟨(message_wrapper_shaping sampleReq "u" [] PyVal.none PyVal.none PyVal.none).2.1 rfl,
   (message_wrapper_shaping sampleReq "u" [] (PyVal.int 5) PyVal.none
      (PyVal.replyMarkup "mk")).2.2.2.1 rfl,
   (message_wrapper_shaping sampleReq "u" [] (PyVal.int 5) PyVal.none
      (PyVal.replyMarkup "mk")).2.2.2.2.2.2.2.1 "mk" rfl⟩

/-- C7: the self-identity cache is populated lazily and is the only cross-call
state. Reading a cached property while `self.bot` is `None` performs exactly one
`get_me` GET and stores the parsed `User` in the cache; reading while populated
performs no transport call and returns the corresponding field; the four
properties `id`, `first_name`, `last_name` and `username` are exactly the
`info`-decorated accesses; and no facade method other than `get_me` changes the
bot state (in particular the cache). -/
theorem lazy_identity_cache (b : BotState) (req : Request) (field : User → PyVal) :
    (b.bot = Option.none →
      (info_access field b req).2.1 = [Call.get (b.base_url ++ "/getMe")] ∧
      (info_access field b req).1 =
        { b with bot := User.de_json (req.getFn (b.base_url ++ "/getMe")) }) ∧
    (∀ u, b.bot = some u →
      info_access field b req = (b, [], Except.ok (field u))) ∧
    prop_id = info_access (fun u => PyVal.int u.id) ∧
    prop_first_name = info_access (fun u => PyVal.str u.first_name) ∧
    prop_last_name = info_access (fun u => pyOptStr u.last_name) ∧
    prop_username = info_access (fun u => PyVal.str u.username) ∧
    (∀ (x1 x2 x3 x4 x5 x6 x7 : PyVal), (send_message b req x1 x2 x3 x4 x5 x6 x7).1 = b) ∧
    (∀ (x1 x2 : PyVal), (delete_message b req x1 x2).1 = b) ∧
    (∀ (x1 x2 x3 x4 x5 x6 : PyVal), (forward_message b req x1 x2 x3 x4 x5 x6).1 = b) ∧
    (∀ (x1 x2 x3 x4 x5 x6 : PyVal), (send_photo b req x1 x2 x3 x4 x5 x6).1 = b) ∧
    (∀ (x1 x2 x3 x4 x5 x6 x7 x8 x9 : PyVal), (send_audio b req x1 x2 x3 x4 x5 x6 x7 x8 x9).1 = b) ∧
    (∀ (x1 x2 x3 x4 x5 x6 x7 : PyVal), (send_document b req x1 x2 x3 x4 x5 x6 x7).1 = b) ∧
    (∀ (x1 x2 x3 x4 x5 : PyVal), (send_sticker b req x1 x2 x3 x4 x5).1 = b) ∧
    (∀ (x1 x2 x3 x4 x5 x6 x7 x8 x9 : PyVal), (send_video b req x1 x2 x3 x4 x5 x6 x7 x8 x9).1 = b) ∧
    (∀ (x1 x2 x3 x4 x5 x6 x7 : PyVal), (send_voice b req x1 x2 x3 x4 x5 x6 x7).1 = b) ∧
    (∀ (x1 x2 x3 x4 x5 x6 x7 : PyVal), (send_video_note b req x1 x2 x3 x4 x5 x6 x7).1 = b) ∧
    (∀ (x1 x2 x3 x4 x5 x6 : PyVal), (send_location b req x1 x2 x3 x4 x5 x6).1 = b) ∧
    (∀ (x1 x2 x3 x4 x5 x6 x7 x8 x9 : PyVal), (send_venue b req x1 x2 x3 x4 x5 x6 x7 x8 x9).1 = b) ∧
    (∀ (x1 x2 x3 x4 x5 x6 x7 : PyVal), (send_contact b req x1 x2 x3 x4 x5 x6 x7).1 = b) ∧
    (∀ (x1 x2 x3 x4 x5 : PyVal), (send_game b req x1 x2 x3 x4 x5).1 = b) ∧
    (∀ (x1 x2 : PyVal), (send_chat_action b req x1 x2).1 = b) ∧
    (∀ (x1 : PyVal) (x2 : List InlineQueryResult) (x3 x4 x5 x6 x7 : PyVal), (answer_inline_query b req x1 x2 x3 x4 x5 x6 x7).1 = b) ∧
    (∀ (x1 x2 x3 : PyVal), (get_user_profile_photos b req x1 x2 x3).1 = b) ∧
    (∀ (x1 : PyVal), (get_file b req x1).1 = b) ∧
    (∀ (x1 x2 x3 : PyVal), (kick_chat_member b req x1 x2 x3).1 = b) ∧
    (∀ (x1 x2 : PyVal), (unban_chat_member b req x1 x2).1 = b) ∧
    (∀ (x1 x2 x3 x4 x5 : PyVal), (answer_callback_query b req x1 x2 x3 x4 x5).1 = b) ∧
    (∀ (x1 x2 x3 x4 x5 x6 x7 x8 x9 : PyVal), (edit_message_text b req x1 x2 x3 x4 x5 x6 x7 x8 x9).1 = b) ∧
    (∀ (x1 x2 x3 x4 x5 x6 x7 : PyVal), (edit_message_caption b req x1 x2 x3 x4 x5 x6 x7).1 = b) ∧
    (∀ (x1 x2 x3 x4 x5 x6 : PyVal), (edit_message_reply_markup b req x1 x2 x3 x4 x5 x6).1 = b) ∧
    (∀ (x1 x2 x3 x4 : PyVal), (get_updates b req x1 x2 x3 x4).1 = b) ∧
    (∀ (x1 x2 x3 x4 : PyVal) (x5 : Option PyVal), (set_webhook b req x1 x2 x3 x4 x5).1 = b) ∧
    (delete_webhook b req).1 = b ∧
    (∀ (x1 : PyVal), (leave_chat b req x1).1 = b) ∧
    (∀ (x1 : PyVal), (get_chat b req x1).1 = b) ∧
    (∀ (x1 : PyVal), (get_chat_administrators b req x1).1 = b) ∧
    (∀ (x1 : PyVal), (get_chat_members_count b req x1).1 = b) ∧
    (∀ (x1 x2 : PyVal), (get_chat_member b req x1 x2).1 = b) ∧
    (get_webhook_info b req).1 = b ∧
    (∀ (x1 x2 x3 x4 x5 x6 x7 x8 x9 x10 x11 : PyVal), (set_game_score b req x1 x2 x3 x4 x5 x6 x7 x8 x9 x10 x11).1 = b) ∧
    (∀ (x1 x2 x3 x4 : PyVal), (get_game_high_scores b req x1 x2 x3 x4).1 = b) ∧
    (∀ (x1 x2 x3 x4 x5 x6 x7 : PyVal) (x8 : List LabeledPrice) (x9 x10 x11 x12 x13 x14 x15 x16 x17 x18 x19 x20 : PyVal), (send_invoice b req x1 x2 x3 x4 x5 x6 x7 x8 x9 x10 x11 x12 x13 x14 x15 x16 x17 x18 x19 x20).1 = b) ∧
    (∀ (x1 x2 : PyVal) (x3 : Option (List ShippingOption)) (x4 : PyVal), (answer_shipping_query b req x1 x2 x3 x4).1 = b) ∧
    (∀ (x1 x2 x3 : PyVal), (answer_pre_checkout_query b req x1 x2 x3).1 = b) ∧
    (∀ (x1 x2 x3 x4 x5 x6 x7 : PyVal), (restrict_chat_member b req x1 x2 x3 x4 x5 x6 x7).1 = b) ∧
    (∀ (x1 x2 x3 x4 x5 x6 x7 x8 x9 x10 : PyVal), (promote_chat_member b req x1 x2 x3 x4 x5 x6 x7 x8 x9 x10).1 = b) ∧
    (∀ (x1 : PyVal), (export_chat_invite_link b req x1).1 = b) ∧
    (∀ (x1 x2 : PyVal), (set_chat_photo b req x1 x2).1 = b) ∧
    (∀ (x1 : PyVal), (delete_chat_photo b req x1).1 = b) ∧
    (∀ (x1 x2 : PyVal), (set_chat_title b req x1 x2).1 = b) ∧
    (∀ (x1 x2 : PyVal), (set_chat_description b req x1 x2).1 = b) ∧
    (∀ (x1 x2 x3 : PyVal), (pin_chat_message b req x1 x2 x3).1 = b) ∧
    (∀ (x1 : PyVal), (unpin_chat_message b req x1).1 = b) :=
  ⟨fun h => by
     cases hu : User.de_json (req.getFn (b.base_url ++ "/getMe")) <;>
       simp [info_access, get_me, h, hu],
   fun u h => by simp [info_access, h],
   rfl, rfl, rfl, rfl,
   fun _ _ _ _ _ _ _ => rfl,
   fun _ _ => rfl,
   fun _ _ _ _ _ _ => rfl,
   fun _ _ _ _ _ _ => rfl,
   fun _ _ _ _ _ _ _ _ _ => rfl,
   fun _ _ _ _ _ _ _ => rfl,
   fun _ _ _ _ _ => rfl,
   fun _ _ _ _ _ _ _ _ _ => rfl,
   fun _ _ _ _ _ _ _ => rfl,
   fun _ _ _ _ _ _ _ => rfl,
   fun _ _ _ _ _ _ => rfl,
   fun _ _ _ _ _ _ _ _ _ => rfl,
   fun _ _ _ _ _ _ _ => rfl,
   fun _ _ _ _ _ => rfl,
   fun _ _ => rfl,
   fun _ _ _ _ _ _ _ => rfl,
   fun _ _ _ => rfl,
   fun _ => rfl,
   fun _ _ _ => rfl,
   fun _ _ => rfl,
   fun _ _ _ _ _ => rfl,
   fun _ _ _ _ _ _ _ _ _ => rfl,
   fun _ _ _ _ _ _ _ => rfl,
   fun _ _ _ _ _ _ => rfl,
   fun _ _ _ _ => rfl,
   fun _ _ _ _ _ => rfl,
   rfl,
   fun _ => rfl,
   fun _ => rfl,
   fun _ => rfl,
   fun _ => rfl,
   fun _ _ => rfl,
   rfl,
   fun _ _ _ _ _ _ _ _ _ _ _ => rfl,
   fun _ _ _ _ => rfl,
   fun _ _ _ _ _ _ _ _ _ _ _ _ _ _ _ _ _ _ _ _ => rfl,
   fun _ _ _ _ => rfl,
   fun _ _ _ => rfl,
   fun _ _ _ _ _ _ _ => rfl,
   fun _ _ _ _ _ _ _ _ _ _ => rfl,
   fun _ => rfl,
   fun _ _ => rfl,
   fun _ => rfl,
   fun _ _ => rfl,
   fun _ _ => rfl,
   fun _ _ _ => rfl,
   fun _ => rfl⟩

/-- Witness for C7: on a bot with an empty cache the `id` access performs exactly
one `getMe` GET, and on a bot with a populated cache the access makes no
transport call and returns the cached id 1. -/
theorem lazy_identity_cache_witness :
    (info_access (fun u => PyVal.int u.id) sampleBot sampleReq).2.1 =
      [Call.get (sampleBot.base_url ++ "/getMe")] ∧
    info_access (fun u => PyVal.int u.id) { sampleBot with bot := some sampleUser }
        sampleReq =
      ({ sampleBot with bot := some sampleUser }, [], Except.ok (PyVal.int 1)) :=
  ⟨((lazy_identity_cache sampleBot sampleReq (fun u => PyVal.int u.id)).1 rfl).1,
   (lazy_identity_cache { sampleBot with bot := some sampleUser } sampleReq
      (fun u => PyVal.int u.id)).2.1 sampleUser rfl⟩

/-- C8: local precondition failures are atomic. Construction can only fail with
`InvalidToken` (and the embedded constructor takes no transport at all, so no
network activity is possible before or after that check); and for each facade
method with a local validation — the two validating edit methods, the two
payment-query methods, and `set_webhook` with its mutually exclusive
`url`/`webhook_url` `ValueError` — a raised error means no transport call was
made, while the bot state is left unchanged in every case. -/
theorem local_failures_atomic (b : BotState) (req : Request)
    (token : String) (bu bfu : Option String)
    (chat_id message_id inline_message_id caption dn rtm rm : PyVal)
    (shipping_query_id pre_checkout_query_id ok error_message : PyVal)
    (shipping_options : Option (List ShippingOption))
    (url certificate max_connections allowed_updates : PyVal)
    (webhook_url : Option PyVal) :
    (∀ e, bot_init token bu bfu = Except.error e → e = TgError.invalidToken) ∧
    ((∀ e, (edit_message_caption b req chat_id message_id inline_message_id caption
        dn rtm rm).2.2 = Except.error e →
      (edit_message_caption b req chat_id message_id inline_message_id caption
        dn rtm rm).2.1 = []) ∧
      (edit_message_caption b req chat_id message_id inline_message_id caption
        dn rtm rm).1 = b) ∧
    ((∀ e, (edit_message_reply_markup b req chat_id message_id inline_message_id
        dn rtm rm).2.2 = Except.error e →
      (edit_message_reply_markup b req chat_id message_id inline_message_id
        dn rtm rm).2.1 = []) ∧
      (edit_message_reply_markup b req chat_id message_id inline_message_id
        dn rtm rm).1 = b) ∧
    ((∀ e, (answer_shipping_query b req shipping_query_id ok shipping_options
        error_message).2.2 = Except.error e →
      (answer_shipping_query b req shipping_query_id ok shipping_options
        error_message).2.1 = []) ∧
      (answer_shipping_query b req shipping_query_id ok shipping_options
        error_message).1 = b) ∧
    ((∀ e, (answer_pre_checkout_query b req pre_checkout_query_id ok
        error_message).2.2 = Except.error e →
      (answer_pre_checkout_query b req pre_checkout_query_id ok
        error_message).2.1 = []) ∧
      (answer_pre_checkout_query b req pre_checkout_query_id ok error_message).1 = b) ∧
    ((∀ e, (set_webhook b req url certificate max_connections allowed_updates
        webhook_url).2.2 = Except.error e →
      (set_webhook b req url certificate max_connections allowed_updates
        webhook_url).2.1 = []) ∧
      (set_webhook b req url certificate max_connections allowed_updates
        webhook_url).1 = b) := by
  refine ⟨?_, ⟨?_, rfl⟩, ⟨?_, rfl⟩, ⟨?_, rfl⟩, ⟨?_, rfl⟩, ⟨?_, rfl⟩⟩
  · intro e he
    simp only [bot_init, validate_token] at he
    by_cases h1 : token.data.any pyIsSpace = true
    · simp [h1] at he
      exact he.symm
    · simp only [h1] at he
      by_cases h2 : (!(partitionColon token.data).2.1
          || !pyStrIsDigit (partitionColon token.data).1
          || decide ((partitionColon token.data).1.length < 3)) = true
      · simp [h2] at he
        exact he.symm
      · simp [h1, h2] at he
  · intro e he
    unfold edit_message_caption at he ⊢
    by_cases h : (inline_message_id.isNone && (chat_id.isNone || message_id.isNone)) = true
    · simp [h]
    · simp [h] at he
  · intro e he
    unfold edit_message_reply_markup at he ⊢
    by_cases h : (inline_message_id.isNone && (chat_id.isNone || message_id.isNone)) = true
    · simp [h]
    · simp [h] at he
  · intro e he
    unfold answer_shipping_query at he ⊢
    cases hok : truthy ok <;> cases hso : shipping_options <;>
      cases hem : error_message.isNone <;> simp [hok, hso, hem] at he ⊢
  · intro e he
    unfold answer_pre_checkout_query at he ⊢
    cases hok : truthy ok <;> cases hem : error_message.isNone <;>
      simp [hok, hem, Bool.xor] at he ⊢
  · intro e he
    unfold set_webhook at he ⊢
    cases webhook_url with
    | none => simp [set_webhook_post] at he
    | some wu =>
      by_cases h : url.isNone = true
      · simp [h, set_webhook_post] at he
      · simp [h] at he ⊢

/-- Witness for C8: the concrete failing inputs — `edit_message_caption` with no
identifiers, `answer_pre_checkout_query` with `ok` true and an error message,
`set_webhook` given both `url` and `webhook_url`, and a whitespace token — all
fail without any transport call. -/
theorem local_failures_atomic_witness :
    (edit_message_caption sampleBot sampleReq PyVal.none PyVal.none PyVal.none PyVal.none
        PyVal.none PyVal.none PyVal.none).2.1 = [] ∧
    (answer_pre_checkout_query sampleBot sampleReq PyVal.none (PyVal.bool true)
        (PyVal.str "oops")).2.1 = [] ∧
    (set_webhook sampleBot sampleReq (PyVal.str "https://e.com") PyVal.none PyVal.none
        PyVal.none (some (PyVal.str "https://w.com"))).2.1 = [] ∧
    (∀ e, bot_init "bad token" Option.none Option.none = Except.error e →
      e = TgError.invalidToken) :=
  ⟨((local_failures_atomic sampleBot sampleReq "t" Option.none Option.none PyVal.none PyVal.none
      PyVal.none PyVal.none PyVal.none PyVal.none PyVal.none PyVal.none PyVal.none PyVal.none
      PyVal.none Option.none PyVal.none PyVal.none PyVal.none PyVal.none Option.none).2.1.1 _ rfl),
   ((local_failures_atomic sampleBot sampleReq "t" Option.none Option.none PyVal.none PyVal.none
      PyVal.none PyVal.none PyVal.none PyVal.none PyVal.none PyVal.none PyVal.none (PyVal.bool
      true) (PyVal.str "oops") Option.none PyVal.none PyVal.none PyVal.none PyVal.none
      Option.none).2.2.2.2.1.1 _ rfl),
   ((local_failures_atomic sampleBot sampleReq "t" Option.none Option.none PyVal.none PyVal.none
      PyVal.none PyVal.none PyVal.none PyVal.none PyVal.none PyVal.none PyVal.none PyVal.none
      PyVal.none Option.none (PyVal.str "https://e.com") PyVal.none PyVal.none PyVal.none (some
      (PyVal.str "https://w.com"))).2.2.2.2.2.1 _ rfl),
   fun e he =>
     ((local_failures_atomic sampleBot sampleReq "bad token" Option.none Option.none PyVal.none
        PyVal.none PyVal.none PyVal.none PyVal.none PyVal.none PyVal.none PyVal.none PyVal.none
        PyVal.none PyVal.none Option.none PyVal.none PyVal.none PyVal.none PyVal.none
        Option.none).1) e he⟩

/-- C9: each of the 48 camelCase class attributes of the alias block (bot.py
lines 2497-2545) is bound to the very same function as its snake_case
counterpart, so either name behaves identically on any arguments and transport. -/
theorem camelCase_aliases_are_same_functions :
    getMe = get_me ∧
    sendMessage = send_message ∧
    deleteMessage = delete_message ∧
    forwardMessage = forward_message ∧
    sendPhoto = send_photo ∧
    sendAudio = send_audio ∧
    sendDocument = send_document ∧
    sendSticker = send_sticker ∧
    sendVideo = send_video ∧
    sendVoice = send_voice ∧
    sendVideoNote = send_video_note ∧
    sendLocation = send_location ∧
    sendVenue = send_venue ∧
    sendContact = send_contact ∧
    sendGame = send_game ∧
    sendChatAction = send_chat_action ∧
    answerInlineQuery = answer_inline_query ∧
    getUserProfilePhotos = get_user_profile_photos ∧
    getFile = get_file ∧
    kickChatMember = kick_chat_member ∧
    unbanChatMember = unban_chat_member ∧
    answerCallbackQuery = answer_callback_query ∧
    editMessageText = edit_message_text ∧
    editMessageCaption = edit_message_caption ∧
    editMessageReplyMarkup = edit_message_reply_markup ∧
    getUpdates = get_updates ∧
    setWebhook = set_webhook ∧
    deleteWebhook = delete_webhook ∧
    leaveChat = leave_chat ∧
    getChat = get_chat ∧
    getChatAdministrators = get_chat_administrators ∧
    getChatMember = get_chat_member ∧
    getChatMembersCount = get_chat_members_count ∧
    getWebhookInfo = get_webhook_info ∧
    setGameScore = set_game_score ∧
    getGameHighScores = get_game_high_scores ∧
    sendInvoice = send_invoice ∧
    answerShippingQuery = answer_shipping_query ∧
    answerPreCheckoutQuery = answer_pre_checkout_query ∧
    restrictChatMember = restrict_chat_member ∧
    promoteChatMember = promote_chat_member ∧
    exportChatInviteLink = export_chat_invite_link ∧
    setChatPhoto = set_chat_photo ∧
    deleteChatPhoto = delete_chat_photo ∧
    setChatTitle = set_chat_title ∧
    setChatDescription = set_chat_description ∧
    pinChatMessage = pin_chat_message ∧
    unpinChatMessage = unpin_chat_message :=
  ⟨rfl, rfl, rfl, rfl, rfl, rfl, rfl, rfl, rfl, rfl, rfl, rfl, rfl, rfl, rfl, rfl, rfl, rfl, rfl, rfl, rfl, rfl, rfl, rfl, rfl, rfl, rfl, rfl, rfl, rfl, rfl, rfl, rfl, rfl, rfl, rfl, rfl, rfl, rfl, rfl, rfl, rfl, rfl, rfl, rfl, rfl, rfl, rfl⟩

/-- C10 counterexample: the claim says a falsy optional parameter such as a
`duration` of 0 is always omitted, `answer_inline_query` being the only method
that keeps a falsy `cache_time`. At concrete inputs, `send_video_note` keeps a
`duration` of 0 in its map (it gates by `is not None`, bot.py line 732), and
`answer_callback_query` keeps a `cache_time` of 0 (line 1249), refuting both the
omission and the only-special-case parts of the claim. -/
theorem falsy_duration_kept_counterexample :
    getKey (send_video_note_request sampleBot (PyVal.int 5) (PyVal.str "vn") (PyVal.int 0)
        PyVal.none).2 "duration" = some (PyVal.int 0) ∧
    getKey (answer_callback_query_data (PyVal.str "q") PyVal.none PyVal.none PyVal.none
        (PyVal.int 0)) "cache_time" = some (PyVal.int 0) :=
  ⟨rfl, rfl⟩

/-- C10 (amended): the cited methods do attach the cited optional parameters by
truthiness — `duration`, `performer`, `title` and `caption` in `send_audio`, even
the required `chat_id`, `from_chat_id` and `message_id` in `forward_message`,
`offset` and `limit` in `get_updates` and `get_user_profile_photos`, and
`show_alert` in `answer_callback_query` are omitted when falsy — and
`answer_inline_query` keeps a `cache_time` equal to 0; but answer_inline_query is
not the only presence-gated exception: `send_video_note` keeps a `duration` of 0
and `answer_callback_query` keeps a `cache_time` of 0. -/
theorem falsy_param_gating (b : BotState) :
    (∀ chat audio duration performer title caption, truthy duration = false →
      getKey (send_audio_request b chat audio duration performer title caption).2
        "duration" = Option.none) ∧
    (∀ chat audio duration performer title caption, truthy performer = false →
      getKey (send_audio_request b chat audio duration performer title caption).2
        "performer" = Option.none) ∧
    (∀ chat audio duration performer title caption, truthy title = false →
      getKey (send_audio_request b chat audio duration performer title caption).2
        "title" = Option.none) ∧
    (∀ chat audio duration performer title caption, truthy caption = false →
      getKey (send_audio_request b chat audio duration performer title caption).2
        "caption" = Option.none) ∧
    (∀ chat fchat mid, truthy chat = false →
      getKey (forward_message_request b chat fchat mid).2 "chat_id" = Option.none) ∧
    (∀ chat fchat mid, truthy fchat = false →
      getKey (forward_message_request b chat fchat mid).2 "from_chat_id" = Option.none) ∧
    (∀ chat fchat mid, truthy mid = false →
      getKey (forward_message_request b chat fchat mid).2 "message_id" = Option.none) ∧
    (∀ offset limit timeout au, truthy offset = false →
      getKey (get_updates_data offset limit timeout au) "offset" = Option.none) ∧
    (∀ offset limit timeout au, truthy limit = false →
      getKey (get_updates_data offset limit timeout au) "limit" = Option.none) ∧
    (∀ uid offset limit, truthy offset = false →
      getKey (get_user_profile_photos_data uid offset limit) "offset" = Option.none) ∧
    (∀ uid offset limit, truthy limit = false →
      getKey (get_user_profile_photos_data uid offset limit) "limit" = Option.none) ∧
    (∀ cqid text sa url ct, truthy sa = false →
      getKey (answer_callback_query_data cqid text sa url ct) "show_alert" =
        Option.none) ∧
    (∀ iqid results ip no spt spp,
      getKey (answer_inline_query_data iqid results (PyVal.int 0) ip no spt spp)
        "cache_time" = some (PyVal.int 0)) ∧
    (∀ chat vn len, getKey (send_video_note_request b chat vn (PyVal.int 0) len).2
        "duration" = some (PyVal.int 0)) ∧
    (∀ cqid text sa url, getKey (answer_callback_query_data cqid text sa url
        (PyVal.int 0)) "cache_time" = some (PyVal.int 0)) := by
  refine ⟨?_, ?_, ?_, ?_, ?_, ?_, ?_, ?_, ?_, ?_, ?_, ?_, ?_, ?_, ?_⟩
  · intro chat audio duration performer title caption h
    simp [send_audio_request, h, getKey_ite, getKey_if, getKey_setItem_self, getKey_setItem_other,
      getKey]
  · intro chat audio duration performer title caption h
    simp [send_audio_request, h, getKey_ite, getKey_if, getKey_setItem_self, getKey_setItem_other,
      getKey]
  · intro chat audio duration performer title caption h
    simp [send_audio_request, h, getKey_ite, getKey_if, getKey_setItem_self, getKey_setItem_other,
      getKey]
  · intro chat audio duration performer title caption h
    simp [send_audio_request, h, getKey_ite, getKey_if, getKey_setItem_self, getKey_setItem_other,
      getKey]
  · intro chat fchat mid h
    simp [forward_message_request, h, getKey_ite, getKey_if, getKey_setItem_self,
      getKey_setItem_other, getKey]
  · intro chat fchat mid h
    simp [forward_message_request, h, getKey_ite, getKey_if, getKey_setItem_self,
      getKey_setItem_other, getKey]
  · intro chat fchat mid h
    simp [forward_message_request, h, getKey_ite, getKey_if, getKey_setItem_self,
      getKey_setItem_other, getKey]
  · intro offset limit timeout au h
    simp [get_updates_data, h, getKey_ite, getKey_if, getKey_setItem_self, getKey_setItem_other,
      getKey]
  · intro offset limit timeout au h
    simp [get_updates_data, h, getKey_ite, getKey_if, getKey_setItem_self, getKey_setItem_other,
      getKey]
  · intro uid offset limit h
    simp [get_user_profile_photos_data, h, getKey_ite, getKey_if, getKey_setItem_self,
      getKey_setItem_other, getKey]
  · intro uid offset limit h
    simp [get_user_profile_photos_data, h, getKey_ite, getKey_if, getKey_setItem_self,
      getKey_setItem_other, getKey]
  · intro cqid text sa url ct h
    simp [answer_callback_query_data, h, getKey_ite, getKey_if, getKey_setItem_self,
      getKey_setItem_other, getKey]
  · intro iqid results ip no spt spp
    simp [answer_inline_query_data, pyEqInt, getKey_ite, getKey_if, getKey_setItem_self,
      getKey_setItem_other, getKey]
  · intro chat vn len
    simp [send_video_note_request, PyVal.isNone, getKey_ite, getKey_if, getKey_setItem_self,
      getKey_setItem_other, getKey]
  · intro cqid text sa url
    simp [answer_callback_query_data, PyVal.isNone, getKey_ite, getKey_if, getKey_setItem_self,
      getKey_setItem_other, getKey]

/-- Witness for C10 (amended): a `duration` of 0 is omitted by `send_audio`, a
falsy `offset` is omitted by `get_updates`, and `answer_inline_query` keeps a
`cache_time` of 0. -/
theorem falsy_param_gating_witness :
    getKey (send_audio_request sampleBot (PyVal.int 5) (PyVal.str "a") (PyVal.int 0)
        PyVal.none PyVal.none PyVal.none).2 "duration" = Option.none ∧
    getKey (get_updates_data (PyVal.int 0) (PyVal.int 100) (PyVal.int 0) PyVal.none)
        "offset" = Option.none ∧
    getKey (answer_inline_query_data (PyVal.str "iq") [] (PyVal.int 0) PyVal.none
        PyVal.none PyVal.none PyVal.none) "cache_time" = some (PyVal.int 0) :=
  ⟨(falsy_param_gating sampleBot).1 (PyVal.int 5) (PyVal.str "a") (PyVal.int 0)
      PyVal.none PyVal.none PyVal.none rfl,
   (falsy_param_gating sampleBot).2.2.2.2.2.2.2.1 (PyVal.int 0) (PyVal.int 100)
      (PyVal.int 0) PyVal.none rfl,
   (falsy_param_gating sampleBot).2.2.2.2.2.2.2.2.2.2.2.2.1 (PyVal.str "iq") []
      PyVal.none PyVal.none PyVal.none PyVal.none⟩
